import Mathlib

/-!
Verification development for the `threejs` repository: a configuration-driven
Three.js scene orchestrator (`ThreeJSScene` in `src/app/js/main.js`, with the
latest revision of the brain-model loading code in `src/unnamed/part_002`,
and the default configuration in `src/app/js/config.js`).

The embedding below translates the orchestrator's data model and operations
into executable Lean definitions.  JavaScript numbers are modelled as exact
rationals (no claim under verification depends on floating-point rounding);
library objects (scene, cameras, lights, materials, renderers) are modelled
by the parameters the orchestrator passes to their constructors, with object
identity tracked by allocation of fresh numeric ids; side effects (scene
insertions, dispose calls, DOM operations, animation-frame registrations)
are recorded in an explicit event trace; a JavaScript null dereference is an
`Except.error`, and every field that can be null in the source is an
`Option`.
-/

namespace ThreeJs

/-- JavaScript numbers modelled as exact rationals. -/
abbrev Num := ℚ

/-- The exact rational value of the IEEE-754 double `Math.PI`. -/
def jsMathPI : Num := 884279719003555 / 281474976710656

/-- A 3-component vector record `{ x, y, z }` as used throughout `config.js`
and for positions/rotations of scene objects. -/
structure Vec3 where
  x : Num
  y : Num
  z : Num
deriving Repr, DecidableEq

/-- Componentwise vector subtraction (`model.position.sub(center)`). -/
def Vec3.sub (a b : Vec3) : Vec3 :=
  { x := a.x - b.x, y := a.y - b.y, z := a.z - b.z }

/-! ## Configuration records (they mirror `config.js`) -/

/-- `geometry.torusKnot` block of `config.js`. -/
structure TorusKnotCfg where
  radius : Num
  tube : Num
  tubularSegments : Num
  radialSegments : Num
  p : Num
  q : Num
deriving Repr, DecidableEq

/-- `geometry.box` block of `config.js`. -/
structure BoxCfg where
  width : Num
  height : Num
  depth : Num
  widthSegments : Num
  heightSegments : Num
  depthSegments : Num
deriving Repr, DecidableEq

/-- `geometry.sphere` block of `config.js`. -/
structure SphereCfg where
  radius : Num
  widthSegments : Num
  heightSegments : Num
  phiStart : Num
  phiLength : Num
  thetaStart : Num
  thetaLength : Num
deriving Repr, DecidableEq

/-- `geometry.torus` block of `config.js`. -/
structure TorusCfg where
  radius : Num
  tube : Num
  radialSegments : Num
  tubularSegments : Num
  arc : Num
deriving Repr, DecidableEq

/-- `geometry.octahedron` / `geometry.tetrahedron` / `geometry.icosahedron`
blocks of `config.js` (radius and detail). -/
structure PolyhedronCfg where
  radius : Num
  detail : Num
deriving Repr, DecidableEq

/-- One brain-region descriptor from `geometry.brain.regions`. -/
structure BrainRegion where
  name : String
  position : Vec3
  description : String
deriving Repr, DecidableEq

/-- `geometry.brain` block of `config.js`. -/
structure BrainCfg where
  modelUrl : String
  scale : Num
  regions : List BrainRegion
  showLabels : Bool
  labelStyle : String
deriving Repr, DecidableEq

/-- `geometry` section of `config.js`. -/
structure GeometryCfg where
  type : String
  enabled : Bool
  torusKnot : TorusKnotCfg
  box : BoxCfg
  sphere : SphereCfg
  torus : TorusCfg
  octahedron : PolyhedronCfg
  tetrahedron : PolyhedronCfg
  icosahedron : PolyhedronCfg
  brain : BrainCfg
deriving Repr, DecidableEq

/-- `material.texture` block of `config.js`. -/
structure TextureCfg where
  enabled : Bool
  url : String
  repeatX : Num
  repeatY : Num
  offsetX : Num
  offsetY : Num
  wrapS : String
  wrapT : String
deriving Repr, DecidableEq

/-- `material` section of `config.js`. -/
structure MaterialCfg where
  type : String
  enabled : Bool
  color : Nat
  wireframe : Bool
  transparent : Bool
  opacity : Num
  side : String
  metalness : Num
  roughness : Num
  emissive : Nat
  emissiveIntensity : Num
  texture : TextureCfg
deriving Repr, DecidableEq

/-- `camera.perspective` block of `config.js`. -/
structure PerspectiveCfg where
  fov : Num
  near : Num
  far : Num
deriving Repr, DecidableEq

/-- `camera.orthographic` block of `config.js`. -/
structure OrthographicCfg where
  left : Num
  right : Num
  top : Num
  bottom : Num
  near : Num
  far : Num
deriving Repr, DecidableEq

/-- `camera` section of `config.js`. -/
structure CameraCfg where
  enabled : Bool
  type : String
  perspective : PerspectiveCfg
  orthographic : OrthographicCfg
  position : Vec3
  rotation : Vec3
deriving Repr, DecidableEq

/-- `lighting.ambient` block of `config.js`. -/
structure AmbientCfg where
  enabled : Bool
  color : Nat
  intensity : Num
deriving Repr, DecidableEq

/-- `lighting.directional` block of `config.js`. -/
structure DirectionalCfg where
  enabled : Bool
  color : Nat
  intensity : Num
  position : Vec3
  castShadow : Bool
deriving Repr, DecidableEq

/-- `lighting.hemisphere` block of `config.js`. -/
structure HemisphereCfg where
  enabled : Bool
  skyColor : Nat
  groundColor : Nat
  intensity : Num
  position : Vec3
deriving Repr, DecidableEq

/-- `lighting.point` block of `config.js`. -/
structure PointCfg where
  enabled : Bool
  color : Nat
  intensity : Num
  distance : Num
  decay : Num
  position : Vec3
  castShadow : Bool
deriving Repr, DecidableEq

/-- `lighting.spot.shadow` block of `config.js`. -/
structure SpotShadowCfg where
  mapSizeWidth : Num
  mapSizeHeight : Num
  cameraNear : Num
  cameraFar : Num
  cameraFov : Num
deriving Repr, DecidableEq

/-- `lighting.spot` block of `config.js`. -/
structure SpotCfg where
  enabled : Bool
  color : Nat
  intensity : Num
  distance : Num
  angle : Num
  penumbra : Num
  decay : Num
  position : Vec3
  target : Vec3
  castShadow : Bool
  shadow : SpotShadowCfg
deriving Repr, DecidableEq

/-- `lighting` section of `config.js`. -/
structure LightingCfg where
  enabled : Bool
  ambient : AmbientCfg
  directional : DirectionalCfg
  hemisphere : HemisphereCfg
  point : PointCfg
  spot : SpotCfg
deriving Repr, DecidableEq

/-- `renderer.pixelRatio` is either the string `'auto'` or a number. -/
inductive PixelDensityCfg where
  | auto : PixelDensityCfg
  | value (r : Num) : PixelDensityCfg
deriving Repr, DecidableEq

/-- `renderer.shadowMap` block of `config.js`. -/
structure ShadowMapCfg where
  enabled : Bool
  type : String
deriving Repr, DecidableEq

/-- `renderer` section of `config.js` (`pixelDensity` embeds the JS field
named `pixelRatio`). -/
structure RendererCfg where
  enabled : Bool
  antialias : Bool
  alpha : Bool
  clearColor : Nat
  pixelDensity : PixelDensityCfg
  shadowMap : ShadowMapCfg
  toneMapping : String
  toneMappingExposure : Num
deriving Repr, DecidableEq

/-- `animation` section of `config.js`. -/
structure AnimationCfg where
  enabled : Bool
  autoRotate : Bool
  rotation : Vec3
  speed : Num
deriving Repr, DecidableEq

/-- `scene.background` is `null`, a color number, or a texture URL string. -/
inductive BackgroundCfg where
  | nullBg : BackgroundCfg
  | colorBg (c : Nat) : BackgroundCfg
  | urlBg (u : String) : BackgroundCfg
deriving Repr, DecidableEq

/-- `scene.fog` block of `config.js`. -/
structure FogCfg where
  enabled : Bool
  type : String
  color : Nat
  near : Num
  far : Num
  density : Num
deriving Repr, DecidableEq

/-- `scene` section of `config.js`. -/
structure SceneSectionCfg where
  background : BackgroundCfg
  fog : FogCfg
deriving Repr, DecidableEq

/-- The whole scene-configuration record (the shape of `sceneConfig` in
`config.js`). -/
structure SceneConfig where
  geometry : GeometryCfg
  material : MaterialCfg
  camera : CameraCfg
  lighting : LightingCfg
  renderer : RendererCfg
  animation : AnimationCfg
  scene : SceneSectionCfg
deriving Repr, DecidableEq

/-! ## The repository's default configuration (`sceneConfig` in `config.js`) -/

/-- The thirteen brain-region descriptors of `geometry.brain.regions`. -/
def defaultBrainRegions : List BrainRegion :=
  [ { name := "Frontal Lobe", position := { x := 0, y := 180, z := 280 },
      description := "Planning, decision-making, personality, speech production" },
    { name := "Parietal Lobe", position := { x := 0, y := 250, z := -100 },
      description := "Sensory integration, spatial awareness, body position" },
    { name := "Temporal Lobe", position := { x := -300, y := -50, z := 60 },
      description := "Hearing, language comprehension, facial recognition" },
    { name := "Occipital Lobe", position := { x := 0, y := 100, z := -280 },
      description := "Visual processing, color and motion perception" },
    { name := "Motor Cortex", position := { x := 220, y := 200, z := 40 },
      description := "Precentral gyrus - voluntary movement control" },
    { name := "Sensory Cortex", position := { x := 240, y := 180, z := -60 },
      description := "Postcentral gyrus - touch, pain, proprioception" },
    { name := "Cerebellum", position := { x := 0, y := -160, z := -250 },
      description := "Coordination, balance, motor learning" },
    { name := "Brainstem", position := { x := 180, y := -180, z := -40 },
      description := "Midbrain, pons, medulla - vital autonomic functions" },
    { name := "Thalamus", position := { x := -250, y := 30, z := 40 },
      description := "Sensory relay hub - routes information to cortex" },
    { name := "Hypothalamus", position := { x := -250, y := -80, z := 100 },
      description := "Homeostasis, hunger, thirst, circadian rhythms" },
    { name := "Hippocampus", position := { x := -280, y := -60, z := 20 },
      description := "Memory consolidation, spatial navigation" },
    { name := "Amygdala", position := { x := -280, y := -50, z := 120 },
      description := "Emotional processing, fear response" },
    { name := "Corpus Callosum", position := { x := -260, y := 120, z := 0 },
      description := "Connects left and right hemispheres" } ]

/-- The repository's default configuration, translated field by field from
`src/app/js/config.js`. -/
def sceneConfig : SceneConfig :=
  { geometry :=
      { type := "brain"
        enabled := true
        torusKnot :=
          { radius := 200, tube := 60, tubularSegments := 100,
            radialSegments := 16, p := 2, q := 3 }
        box :=
          { width := 200, height := 200, depth := 200,
            widthSegments := 1, heightSegments := 1, depthSegments := 1 }
        sphere :=
          { radius := 100, widthSegments := 32, heightSegments := 16,
            phiStart := 0, phiLength := jsMathPI * 2,
            thetaStart := 0, thetaLength := jsMathPI }
        torus :=
          { radius := 100, tube := 40, radialSegments := 16,
            tubularSegments := 100, arc := jsMathPI * 2 }
        octahedron := { radius := 100, detail := 0 }
        tetrahedron := { radius := 100, detail := 0 }
        icosahedron := { radius := 100, detail := 0 }
        brain :=
          { modelUrl := "/models/brain.glb"
            scale := 200
            regions := defaultBrainRegions
            showLabels := true
            labelStyle := "floating" } }
    material :=
      { type := "basic"
        enabled := true
        color := 0xffffff
        wireframe := false
        transparent := false
        opacity := 1
        side := "front"
        metalness := 0.5
        roughness := 0.5
        emissive := 0x000000
        emissiveIntensity := 1
        texture :=
          { enabled := true
            url := "https://images.pexels.com/photos/235994/pexels-photo-235994.jpeg?auto=compress&cs=tinysrgb&dpr=2&h=750&w=1260"
            repeatX := 1, repeatY := 1
            offsetX := 0, offsetY := 0
            wrapS := "repeat", wrapT := "repeat" } }
    camera :=
      { enabled := true
        type := "perspective"
        perspective := { fov := 75, near := 1, far := 10000 }
        orthographic :=
          { left := -1000, right := 1000, top := 1000, bottom := -1000,
            near := 1, far := 10000 }
        position := { x := 0, y := 50, z := 800 }
        rotation := { x := 0, y := 0, z := 0 } }
    lighting :=
      { enabled := true
        ambient := { enabled := true, color := 0x404040, intensity := 0.8 }
        directional :=
          { enabled := true, color := 0xffffff, intensity := 1.5,
            position := { x := 100, y := 100, z := 100 }, castShadow := true }
        hemisphere :=
          { enabled := false, skyColor := 0xffffbb, groundColor := 0x080820,
            intensity := 1, position := { x := 0, y := 1, z := 0 } }
        point :=
          { enabled := false, color := 0xffffff, intensity := 1,
            distance := 0, decay := 1,
            position := { x := 0, y := 0, z := 0 }, castShadow := false }
        spot :=
          { enabled := true, color := 0xffffff, intensity := 1,
            distance := 0, angle := jsMathPI / 3, penumbra := 0, decay := 1,
            position := { x := 0, y := 0, z := 0 },
            target := { x := 0, y := 0, z := 0 },
            castShadow := true,
            shadow :=
              { mapSizeWidth := 1024, mapSizeHeight := 1024,
                cameraNear := 500, cameraFar := 4000, cameraFov := 30 } } }
    renderer :=
      { enabled := true
        antialias := true
        alpha := false
        clearColor := 0x000000
        pixelDensity := PixelDensityCfg.auto
        shadowMap := { enabled := true, type := "pcf" }
        toneMapping := "aces"
        toneMappingExposure := 1 }
    animation :=
      { enabled := true
        autoRotate := true
        rotation := { x := 0.002, y := 0.005, z := 0 }
        speed := 1 }
    scene :=
      { background := BackgroundCfg.nullBg
        fog :=
          { enabled := false, type := "linear", color := 0x000000,
            near := 1, far := 1000, density := 0.00025 } } }

/-! ## Partial configurations and the shallow merge of `updateConfig` -/

/-- A partial configuration argument for `updateConfig(newConfig)`: any
subset of the seven top-level sections may be present. -/
structure PartialConfig where
  geometry : Option GeometryCfg := none
  material : Option MaterialCfg := none
  camera : Option CameraCfg := none
  lighting : Option LightingCfg := none
  renderer : Option RendererCfg := none
  animation : Option AnimationCfg := none
  scene : Option SceneSectionCfg := none
deriving Repr, DecidableEq

/-- The empty partial configuration (an `updateConfig({})` argument). -/
def emptyPartialConfig : PartialConfig := {}

/-- The spread `{ ...this.config, ...newConfig }` of `updateConfig`: a
shallow, top-level merge in which every section present in the argument
replaces the stored section wholesale. -/
def mergeConfig (old : SceneConfig) (p : PartialConfig) : SceneConfig :=
  { geometry := p.geometry.getD old.geometry
    material := p.material.getD old.material
    camera := p.camera.getD old.camera
    lighting := p.lighting.getD old.lighting
    renderer := p.renderer.getD old.renderer
    animation := p.animation.getD old.animation
    scene := p.scene.getD old.scene }

/-! ## Library objects

The orchestrator only ever consumes Three.js objects through the parameters
it passes to their constructors and the mutations/dispose calls it performs
on them, so each object is modelled by exactly those parameters.  Object
identity (needed to count per-object dispose calls) is a numeric id drawn
from a fresh-id counter in the orchestrator state. -/

/-- `THREE.FrontSide` / `THREE.BackSide` / `THREE.DoubleSide`. -/
inductive MaterialSide where
  | FrontSide
  | BackSide
  | DoubleSide
deriving Repr, DecidableEq

/-- `THREE.RepeatWrapping` / `THREE.ClampToEdgeWrapping` /
`THREE.MirroredRepeatWrapping`. -/
inductive TextureWrap where
  | RepeatWrapping
  | ClampToEdgeWrapping
  | MirroredRepeatWrapping
deriving Repr, DecidableEq

/-- The four shadow-map variants of the renderer. -/
inductive ShadowMapType where
  | BasicShadowMap
  | PCFShadowMap
  | PCFSoftShadowMap
  | VSMShadowMap
deriving Repr, DecidableEq

/-- The five tone-mapping variants of the renderer. -/
inductive ToneMappingType where
  | LinearToneMapping
  | ReinhardToneMapping
  | CineonToneMapping
  | ACESFilmicToneMapping
  | NeutralToneMapping
deriving Repr, DecidableEq

/-- A texture object as configured by `createMaterial` (URL, wrapping,
repeat and offset). -/
structure TextureObj where
  url : String
  wrapS : TextureWrap
  wrapT : TextureWrap
  repeatX : Num
  repeatY : Num
  offsetX : Num
  offsetY : Num
deriving Repr, DecidableEq

/-- The material constructor variant chosen by `createMaterial` (or the
marker for a material imported by the GLTF loader, whose parameters the
orchestrator never reads). -/
inductive MaterialKind where
  | basic
  | standard
  | phong
  | lambert
  | toon
  | physical
  | gltfImported
deriving Repr, DecidableEq

/-- The property bag passed to a material constructor.  Unset properties
take the Three.js defaults recorded here as field defaults. -/
structure MaterialSpec where
  kind : MaterialKind
  color : Nat := 0xffffff
  wireframe : Bool := false
  transparent : Bool := false
  opacity : Num := 1
  side : MaterialSide := MaterialSide.FrontSide
  map : Option TextureObj := none
  metalness : Num := 0
  roughness : Num := 1
  emissive : Nat := 0
  emissiveIntensity : Num := 1
  clearcoat : Num := 0
  clearcoatRoughness : Num := 0
deriving Repr, DecidableEq

/-- A material instance: identity, constructor parameters, and (for
loader-imported materials) the texture slots it holds, as an association
list from slot name to texture id. -/
structure MaterialObj where
  id : Nat
  spec : MaterialSpec
  textures : List (String × Nat) := []
deriving Repr, DecidableEq

/-- A primitive-geometry constructor invocation, with its positional
arguments in the order `createGeometry` passes them. -/
inductive GeometryCall where
  | torusKnotGeometry (radius tube tubularSegments radialSegments p q : Num)
  | boxGeometry (width height depth widthSegments heightSegments depthSegments : Num)
  | sphereGeometry (radius widthSegments heightSegments phiStart phiLength thetaStart thetaLength : Num)
  | torusGeometry (radius tube radialSegments tubularSegments arc : Num)
  | octahedronGeometry (radius detail : Num)
  | tetrahedronGeometry (radius detail : Num)
  | icosahedronGeometry (radius detail : Num)
deriving Repr, DecidableEq

/-- A geometry instance: identity plus the constructor call that made it. -/
structure GeometryObj where
  id : Nat
  call : GeometryCall
deriving Repr, DecidableEq

/-- A `THREE.Mesh` created by the orchestrator. -/
structure Mesh where
  id : Nat
  geometry : GeometryObj
  material : MaterialObj
  position : Vec3 := { x := 0, y := 0, z := 0 }
  rotation : Vec3 := { x := 0, y := 0, z := 0 }
  castShadow : Bool := false
  receiveShadow : Bool := false
deriving Repr, DecidableEq

/-- A light created by `createLights`, with the constructor parameters of
its kind. -/
inductive LightObj where
  | ambientLight (id : Nat) (color : Nat) (intensity : Num)
  | directionalLight (id : Nat) (color : Nat) (intensity : Num)
      (position : Vec3) (castShadow : Bool)
  | hemisphereLight (id : Nat) (skyColor groundColor : Nat) (intensity : Num)
      (position : Vec3)
  | pointLight (id : Nat) (color : Nat) (intensity distance decay : Num)
      (position : Vec3) (castShadow : Bool)
  | spotLight (id : Nat) (color : Nat)
      (intensity distance angle penumbra decay : Num)
      (position target : Vec3) (castShadow : Bool)
      (shadow : Option SpotShadowCfg)
deriving Repr, DecidableEq

/-- The identity of a light. -/
def LightObj.id : LightObj → Nat
  | .ambientLight i _ _ => i
  | .directionalLight i _ _ _ _ => i
  | .hemisphereLight i _ _ _ _ => i
  | .pointLight i _ _ _ _ _ _ => i
  | .spotLight i _ _ _ _ _ _ _ _ _ _ => i

/-- A perspective camera (`fov` is defined, so the resize handler treats it
by aspect). -/
structure PerspCamera where
  fov : Num
  aspect : Num
  near : Num
  far : Num
  position : Vec3
  rotation : Vec3
deriving Repr, DecidableEq

/-- An orthographic camera (`left` is defined, so the resize handler
recomputes its bounds). -/
structure OrthoCamera where
  left : Num
  right : Num
  top : Num
  bottom : Num
  near : Num
  far : Num
  position : Vec3
  rotation : Vec3
deriving Repr, DecidableEq

/-- The camera stored in `this.camera`. -/
inductive Camera where
  | persp (c : PerspCamera)
  | ortho (c : OrthoCamera)
deriving Repr, DecidableEq

/-- Where a DOM element was appended: the `#app` container or the document
body. -/
inductive DomTarget where
  | appDiv
  | body
deriving Repr, DecidableEq

/-- The WebGL renderer as configured by `createRenderer` (`pixelDensity`
embeds the JS property named `pixelRatio`). -/
structure Renderer where
  antialias : Bool
  alpha : Bool
  clearColor : Nat
  clearAlpha : Num
  width : Num
  height : Num
  pixelDensity : Num
  shadowMapEnabled : Bool
  shadowMapType : ShadowMapType
  toneMapping : ToneMappingType
  toneMappingExposure : Num
  attachedTo : DomTarget
deriving Repr, DecidableEq

/-- The CSS2D label renderer (the overlay).  `attached` is the parent node
of its DOM element, when any. -/
structure LabelRenderer where
  width : Num
  height : Num
  attached : Option DomTarget
deriving Repr, DecidableEq

/-- A floating HTML label (`CSS2DObject`): its DOM element carries the
region name and description; `elementAttached` is whether the element
currently has a parent node. -/
structure Label where
  id : Nat
  name : String
  description : String
  position : Vec3
  elementAttached : Bool := false
deriving Repr, DecidableEq

/-- The material slot of a GLTF node: absent, a single material, or an
array of materials. -/
inductive GltfMaterialSlot where
  | noMat
  | single (m : MaterialObj)
  | array (ms : List MaterialObj)
deriving Repr, DecidableEq

/-- One object visited by `traverse` over a loaded GLTF scene. -/
structure GltfNode where
  id : Nat
  isMesh : Bool
  geometry : Option Nat
  material : GltfMaterialSlot
  castShadow : Bool := false
  receiveShadow : Bool := false
deriving Repr, DecidableEq

/-- A scene delivered by the GLTF loader.  `center` and `size` are the
bounding-box outputs of `THREE.Box3` for this scene (library-computed
attributes of the loaded model). -/
structure GltfScene where
  nodes : List GltfNode
  position : Vec3 := { x := 0, y := 0, z := 0 }
  scaleScalar : Num := 1
  center : Vec3
  size : Vec3
deriving Repr, DecidableEq

/-- A line object (`THREE.Line`) drawn from marker to label. -/
structure LineObj where
  id : Nat
  geometryId : Nat
  pointA : Vec3
  pointB : Vec3
  material : MaterialObj
deriving Repr, DecidableEq

/-- A child of the brain group. -/
inductive GroupChild where
  | modelChild (g : GltfScene)
  | labelChild (l : Label)
  | meshChild (m : Mesh)
  | lineChild (ln : LineObj)
deriving Repr, DecidableEq

/-- The `THREE.Group` stored in `this.brainGroup`. -/
structure Group where
  id : Nat
  rotation : Vec3 := { x := 0, y := 0, z := 0 }
  children : List GroupChild := []
deriving Repr, DecidableEq

/-- The value of `this.mesh`: a primitive mesh, or a reference to the brain
group (after `this.mesh = this.brainGroup`). -/
inductive MeshRef where
  | primRef (m : Mesh)
  | groupRef (gid : Nat)
deriving Repr, DecidableEq

/-- A child added to the root scene, by reference (the objects themselves
live in the orchestrator's fields, as in JS). -/
inductive SceneChildRef where
  | meshRefC (id : Nat)
  | groupRefC (id : Nat)
  | lightRefC (id : Nat)
  | lightTargetRefC (id : Nat)
deriving Repr, DecidableEq

/-- The `scene.background` value after `createScene`. -/
inductive BackgroundObj where
  | texBg (url : String)
  | colorObjBg (c : Nat)
deriving Repr, DecidableEq

/-- The `scene.fog` value after `createScene`. -/
inductive FogObj where
  | linearFog (color : Nat) (near far : Num)
  | exp2Fog (color : Nat) (density : Num)
deriving Repr, DecidableEq

/-- The root `THREE.Scene`. -/
structure SceneObj where
  background : Option BackgroundObj := none
  fog : Option FogObj := none
  children : List SceneChildRef := []
deriving Repr, DecidableEq

/-- The browser environment inputs the orchestrator reads (`deviceDensity`
embeds `window.devicePixelRatio`). -/
structure Env where
  innerWidth : Num
  innerHeight : Num
  deviceDensity : Num
  appExists : Bool
deriving Repr, DecidableEq

/-- Observable side effects of the orchestrator, recorded as a trace. -/
inductive Event where
  | sceneAdd (c : SceneChildRef)
  | warn (msg : String)
  | logMsg (msg : String)
  | rafRegister (id : Nat)
  | cancelRAF (id : Nat)
  | addResizeListener
  | removeResizeListener
  | disposeLight (id : Nat)
  | disposeGeometry (id : Nat)
  | disposeMaterialEvt (id : Nat)
  | disposeTexture (id : Nat)
  | removeLabelElement (id : Nat)
  | removeLabelRendererDom
  | disposeRenderer
  | domAppendRenderer (t : DomTarget)
  | domAppendLabelRenderer (t : DomTarget)
  | renderFrame
  | labelRenderFrame
  | updateProjection
  | setRendererSize (w h : Num)
  | setLabelRendererSize (w h : Num)
deriving Repr, DecidableEq

/-- The instance fields of `ThreeJSScene` (plus the fresh-id counter of the
embedding and the pending model loads with their captured version). -/
structure ThreeState where
  config : SceneConfig
  scene : Option SceneObj := none
  camera : Option Camera := none
  renderer : Option Renderer := none
  labelRenderer : Option LabelRenderer := none
  lights : List LightObj := []
  mesh : Option MeshRef := none
  brainGroup : Option Group := none
  labels : List Label := []
  animationId : Option Nat := none
  resizeHandler : Bool := false
  loadingVersion : Nat := 0
  pendingLoads : List (String × Nat) := []
  nextId : Nat := 1
deriving Repr, DecidableEq

/-- Result type of every stateful operation: a JavaScript exception is an
`Except.error`, a normal return yields the new state and the events
emitted. -/
abbrev OpResult := Except String (ThreeState × List Event)

/-- Sequencing of stateful operations, accumulating the event trace; an
error in either part propagates (there is no catch anywhere in the
orchestrator). -/
def andThen (r : OpResult) (f : ThreeState → OpResult) : OpResult :=
  match r with
  | .error e => .error e
  | .ok (s, evs) =>
    match f s with
    | .error e => .error e
    | .ok (s2, evs2) => .ok (s2, evs ++ evs2)

/-- Dereference of a possibly-null value: JavaScript throws a `TypeError`
when the value is null. -/
def jsDeref {α : Type} (o : Option α) (what : String) : Except String α :=
  match o with
  | some a => .ok a
  | none => .error ("TypeError: " ++ what ++ " is null")

/-- JavaScript `a || b` on numbers (`0` is falsy). -/
def jsOrNum (a b : Num) : Num := if a = 0 then b else a

/-! ## Pure enum-translation helpers (`main.js` lines 285-307, 648-677).
The JS `switch` statements with early returns are translated as
equality chains. -/

/-- `getMaterialSide`: unknown values share the `'front'` default. -/
def getMaterialSide (side : String) : MaterialSide :=
  if side = "back" then MaterialSide.BackSide
  else if side = "double" then MaterialSide.DoubleSide
  else MaterialSide.FrontSide

/-- `getTextureWrap`: unknown values share the `'repeat'` default. -/
def getTextureWrap (wrap : String) : TextureWrap :=
  if wrap = "clampToEdge" then TextureWrap.ClampToEdgeWrapping
  else if wrap = "mirroredRepeat" then TextureWrap.MirroredRepeatWrapping
  else TextureWrap.RepeatWrapping

/-- `getShadowMapType`: unknown values share the `'basic'` default. -/
def getShadowMapType (type : String) : ShadowMapType :=
  if type = "pcf" then ShadowMapType.PCFShadowMap
  else if type = "pcfSoft" then ShadowMapType.PCFSoftShadowMap
  else if type = "vsm" then ShadowMapType.VSMShadowMap
  else ShadowMapType.BasicShadowMap

/-- `getToneMapping`: unknown values take the ACES filmic default. -/
def getToneMapping (type : String) : ToneMappingType :=
  if type = "linear" then ToneMappingType.LinearToneMapping
  else if type = "reinhard" then ToneMappingType.ReinhardToneMapping
  else if type = "cineon" then ToneMappingType.CineonToneMapping
  else if type = "aces" then ToneMappingType.ACESFilmicToneMapping
  else if type = "neutral" then ToneMappingType.NeutralToneMapping
  else ToneMappingType.ACESFilmicToneMapping

/-- The texture-loading block of `createMaterial` (`main.js` lines
204-224): a texture is loaded only when `texture.enabled` and the URL is
truthy (non-empty), configured with the wrap, repeat and offset values. -/
def loadTextureObj (textureConfig : TextureCfg) : Option TextureObj :=
  if textureConfig.enabled ∧ textureConfig.url ≠ "" then
    some { url := textureConfig.url
           wrapS := getTextureWrap textureConfig.wrapS
           wrapT := getTextureWrap textureConfig.wrapT
           repeatX := textureConfig.repeatX
           repeatY := textureConfig.repeatY
           offsetX := textureConfig.offsetX
           offsetY := textureConfig.offsetY }
  else none

/-- `createMaterial` (`main.js` lines 196-283), as the material-constructor
property bag it produces.  When material is disabled it returns
`new THREE.MeshBasicMaterial({ color: 0xffffff })`; an unrecognized
`material.type` falls through to the basic variant built from the common
parameters. -/
def createMaterialSpec (materialConfig : MaterialCfg) : MaterialSpec :=
  if materialConfig.enabled = false then
    { kind := MaterialKind.basic, color := 0xffffff }
  else
    let texture : Option TextureObj := loadTextureObj materialConfig.texture
    let materialParams : MaterialSpec :=
      { kind := MaterialKind.basic
        color := materialConfig.color
        wireframe := materialConfig.wireframe
        transparent := materialConfig.transparent
        opacity := materialConfig.opacity
        side := getMaterialSide materialConfig.side
        map := texture }
    if materialConfig.type = "basic" then materialParams
    else if materialConfig.type = "standard" then
      { materialParams with kind := MaterialKind.standard
                            metalness := materialConfig.metalness
                            roughness := materialConfig.roughness
                            emissive := materialConfig.emissive
                            emissiveIntensity := materialConfig.emissiveIntensity }
    else if materialConfig.type = "phong" then
      { materialParams with kind := MaterialKind.phong
                            emissive := materialConfig.emissive
                            emissiveIntensity := materialConfig.emissiveIntensity }
    else if materialConfig.type = "lambert" then
      { materialParams with kind := MaterialKind.lambert
                            emissive := materialConfig.emissive
                            emissiveIntensity := materialConfig.emissiveIntensity }
    else if materialConfig.type = "toon" then
      { materialParams with kind := MaterialKind.toon }
    else if materialConfig.type = "physical" then
      { materialParams with kind := MaterialKind.physical
                            metalness := materialConfig.metalness
                            roughness := materialConfig.roughness
                            emissive := materialConfig.emissive
                            emissiveIntensity := materialConfig.emissiveIntensity }
    else materialParams

/-! ## Scene-construction operations -/

/-- `createScene`: new root scene; a truthy background is a texture when it
is a string URL, a color otherwise; fog is linear or exponential when
enabled. -/
def createScene (s : ThreeState) : OpResult :=
  let bg : Option BackgroundObj :=
    match s.config.scene.background with
    | BackgroundCfg.nullBg => none
    | BackgroundCfg.urlBg u => if u ≠ "" then some (BackgroundObj.texBg u) else none
    | BackgroundCfg.colorBg c => if c ≠ 0 then some (BackgroundObj.colorObjBg c) else none
  let fg : Option FogObj :=
    if s.config.scene.fog.enabled then
      if s.config.scene.fog.type = "linear" then
        some (FogObj.linearFog s.config.scene.fog.color
          s.config.scene.fog.near s.config.scene.fog.far)
      else
        some (FogObj.exp2Fog s.config.scene.fog.color s.config.scene.fog.density)
    else none
  .ok ({ s with scene := some { background := bg, fog := fg, children := [] } }, [])

/-- `createCamera`: perspective camera from the `perspective` block with
window aspect, otherwise orthographic bounds computed from the
`orthographic` block and the window size (`||` treats a zero extent as
falsy). -/
def createCamera (env : Env) (s : ThreeState) : OpResult :=
  if s.config.camera.enabled = false then .ok (s, [])
  else if s.config.camera.type = "perspective" then
    let pc := s.config.camera.perspective
    let cam : Camera := Camera.persp
      { fov := pc.fov
        aspect := env.innerWidth / env.innerHeight
        near := pc.near
        far := pc.far
        position := s.config.camera.position
        rotation := s.config.camera.rotation }
    .ok ({ s with camera := some cam }, [])
  else
    let oc := s.config.camera.orthographic
    let aspect := env.innerWidth / env.innerHeight
    let width := jsOrNum (abs (oc.right - oc.left)) (env.innerWidth / 2)
    let height := jsOrNum (abs (oc.top - oc.bottom)) (env.innerHeight / 2)
    let cam : Camera := Camera.ortho
      { left := -(width * aspect)
        right := width * aspect
        top := height
        bottom := -height
        near := oc.near
        far := oc.far
        position := s.config.camera.position
        rotation := s.config.camera.rotation }
    .ok ({ s with camera := some cam }, [])

/-- The shared tail of `createGeometry` after the switch: create the
material, create the mesh, store it in `this.mesh` and add it to the
scene. -/
def finishMesh (s : ThreeState) (call : GeometryCall) : OpResult :=
  match jsDeref s.scene "this.scene" with
  | .error e => .error e
  | .ok sc =>
    let geom : GeometryObj := { id := s.nextId, call := call }
    let mat : MaterialObj :=
      { id := s.nextId + 1, spec := createMaterialSpec s.config.material }
    let mesh : Mesh := { id := s.nextId + 2, geometry := geom, material := mat }
    .ok ({ s with
            mesh := some (MeshRef.primRef mesh)
            scene := some { sc with children := sc.children ++ [SceneChildRef.meshRefC mesh.id] }
            nextId := s.nextId + 3 },
         [Event.sceneAdd (SceneChildRef.meshRefC mesh.id)])

/-- The synchronous part of `createBrainGeometry` (revision of
`src/unnamed/part_002`): bump the loading version, capture it, create and
add the brain group, and start the asynchronous GLTF load (recorded as a
pending load carrying the captured version). -/
def createBrainGeometry (s : ThreeState) : OpResult :=
  let brainConfig := s.config.geometry.brain
  let lv := s.loadingVersion + 1
  match jsDeref s.scene "this.scene" with
  | .error e => .error e
  | .ok sc =>
    let gid := s.nextId
    let group : Group := { id := gid }
    .ok ({ s with
            loadingVersion := lv
            brainGroup := some group
            scene := some { sc with children := sc.children ++ [SceneChildRef.groupRefC gid] }
            pendingLoads := s.pendingLoads ++ [(brainConfig.modelUrl, lv)]
            nextId := gid + 1 },
         [Event.sceneAdd (SceneChildRef.groupRefC gid)])

/-- `createGeometry` (`main.js` lines 105-194): guard on `enabled`, switch
on `geometry.type` building the primitive constructor call from the
matching parameter block, a separate asynchronous path for `'brain'`, and
a warning (only) for an unknown type. -/
def createGeometryOp (s : ThreeState) : OpResult :=
  if s.config.geometry.enabled = false then .ok (s, [])
  else if s.config.geometry.type = "torusKnot" then
    finishMesh s (GeometryCall.torusKnotGeometry
      s.config.geometry.torusKnot.radius
      s.config.geometry.torusKnot.tube
      s.config.geometry.torusKnot.tubularSegments
      s.config.geometry.torusKnot.radialSegments
      s.config.geometry.torusKnot.p
      s.config.geometry.torusKnot.q)
  else if s.config.geometry.type = "box" then
    finishMesh s (GeometryCall.boxGeometry
      s.config.geometry.box.width
      s.config.geometry.box.height
      s.config.geometry.box.depth
      s.config.geometry.box.widthSegments
      s.config.geometry.box.heightSegments
      s.config.geometry.box.depthSegments)
  else if s.config.geometry.type = "sphere" then
    finishMesh s (GeometryCall.sphereGeometry
      s.config.geometry.sphere.radius
      s.config.geometry.sphere.widthSegments
      s.config.geometry.sphere.heightSegments
      s.config.geometry.sphere.phiStart
      s.config.geometry.sphere.phiLength
      s.config.geometry.sphere.thetaStart
      s.config.geometry.sphere.thetaLength)
  else if s.config.geometry.type = "torus" then
    finishMesh s (GeometryCall.torusGeometry
      s.config.geometry.torus.radius
      s.config.geometry.torus.tube
      s.config.geometry.torus.radialSegments
      s.config.geometry.torus.tubularSegments
      s.config.geometry.torus.arc)
  else if s.config.geometry.type = "octahedron" then
    finishMesh s (GeometryCall.octahedronGeometry
      s.config.geometry.octahedron.radius
      s.config.geometry.octahedron.detail)
  else if s.config.geometry.type = "tetrahedron" then
    finishMesh s (GeometryCall.tetrahedronGeometry
      s.config.geometry.tetrahedron.radius
      s.config.geometry.tetrahedron.detail)
  else if s.config.geometry.type = "icosahedron" then
    finishMesh s (GeometryCall.icosahedronGeometry
      s.config.geometry.icosahedron.radius
      s.config.geometry.icosahedron.detail)
  else if s.config.geometry.type = "brain" then
    createBrainGeometry s
  else
    .ok (s, [Event.warn ("Unknown geometry type: " ++ s.config.geometry.type)])

/-- Ambient-light step of `createLights`. -/
def addAmbientLight (s : ThreeState) : OpResult :=
  if s.config.lighting.ambient.enabled then
    match jsDeref s.scene "this.scene" with
    | .error e => .error e
    | .ok sc =>
      let a := s.config.lighting.ambient
      let light := LightObj.ambientLight s.nextId a.color a.intensity
      .ok ({ s with
              lights := s.lights ++ [light]
              scene := some { sc with children := sc.children ++ [SceneChildRef.lightRefC s.nextId] }
              nextId := s.nextId + 1 },
           [Event.sceneAdd (SceneChildRef.lightRefC s.nextId)])
  else .ok (s, [])

/-- Directional-light step of `createLights`. -/
def addDirectionalLight (s : ThreeState) : OpResult :=
  if s.config.lighting.directional.enabled then
    match jsDeref s.scene "this.scene" with
    | .error e => .error e
    | .ok sc =>
      let d := s.config.lighting.directional
      let light := LightObj.directionalLight s.nextId d.color d.intensity
        d.position d.castShadow
      .ok ({ s with
              lights := s.lights ++ [light]
              scene := some { sc with children := sc.children ++ [SceneChildRef.lightRefC s.nextId] }
              nextId := s.nextId + 1 },
           [Event.sceneAdd (SceneChildRef.lightRefC s.nextId)])
  else .ok (s, [])

/-- Hemisphere-light step of `createLights`. -/
def addHemisphereLight (s : ThreeState) : OpResult :=
  if s.config.lighting.hemisphere.enabled then
    match jsDeref s.scene "this.scene" with
    | .error e => .error e
    | .ok sc =>
      let h := s.config.lighting.hemisphere
      let light := LightObj.hemisphereLight s.nextId h.skyColor h.groundColor
        h.intensity h.position
      .ok ({ s with
              lights := s.lights ++ [light]
              scene := some { sc with children := sc.children ++ [SceneChildRef.lightRefC s.nextId] }
              nextId := s.nextId + 1 },
           [Event.sceneAdd (SceneChildRef.lightRefC s.nextId)])
  else .ok (s, [])

/-- Point-light step of `createLights`. -/
def addPointLight (s : ThreeState) : OpResult :=
  if s.config.lighting.point.enabled then
    match jsDeref s.scene "this.scene" with
    | .error e => .error e
    | .ok sc =>
      let pt := s.config.lighting.point
      let light := LightObj.pointLight s.nextId pt.color pt.intensity
        pt.distance pt.decay pt.position pt.castShadow
      .ok ({ s with
              lights := s.lights ++ [light]
              scene := some { sc with children := sc.children ++ [SceneChildRef.lightRefC s.nextId] }
              nextId := s.nextId + 1 },
           [Event.sceneAdd (SceneChildRef.lightRefC s.nextId)])
  else .ok (s, [])

/-- Spot-light step of `createLights` (it also adds `light.target` to the
scene, and copies the shadow block only when `castShadow` is set). -/
def addSpotLight (s : ThreeState) : OpResult :=
  if s.config.lighting.spot.enabled then
    match jsDeref s.scene "this.scene" with
    | .error e => .error e
    | .ok sc =>
      let sp := s.config.lighting.spot
      let light := LightObj.spotLight s.nextId sp.color sp.intensity
        sp.distance sp.angle sp.penumbra sp.decay sp.position sp.target
        sp.castShadow (if sp.castShadow then some sp.shadow else none)
      .ok ({ s with
              lights := s.lights ++ [light]
              scene := some { sc with children := sc.children ++
                [SceneChildRef.lightRefC s.nextId, SceneChildRef.lightTargetRefC s.nextId] }
              nextId := s.nextId + 1 },
           [Event.sceneAdd (SceneChildRef.lightRefC s.nextId),
            Event.sceneAdd (SceneChildRef.lightTargetRefC s.nextId)])
  else .ok (s, [])

/-- `createLights` (`main.js` lines 534-609): up to five lights, each
guarded by its own `enabled` flag, pushed onto `this.lights`. -/
def createLights (s : ThreeState) : OpResult :=
  if s.config.lighting.enabled = false then .ok (s, [])
  else
    andThen (andThen (andThen (andThen (addAmbientLight s)
      addDirectionalLight) addHemisphereLight) addPointLight) addSpotLight

/-- `createRenderer` (`main.js` lines 611-646): WebGL renderer configured
from the `renderer` section and appended to `#app` or the body.  When the
shadow map is not enabled its type keeps the Three.js default
(`PCFShadowMap`). -/
def createRenderer (env : Env) (s : ThreeState) : OpResult :=
  if s.config.renderer.enabled = false then .ok (s, [])
  else
    let rc := s.config.renderer
    let pixelDensityValue :=
      match rc.pixelDensity with
      | PixelDensityCfg.auto => env.deviceDensity
      | PixelDensityCfg.value r => r
    let target := if env.appExists then DomTarget.appDiv else DomTarget.body
    let r : Renderer :=
      { antialias := rc.antialias
        alpha := rc.alpha
        clearColor := rc.clearColor
        clearAlpha := if rc.alpha then 0 else 1
        width := env.innerWidth
        height := env.innerHeight
        pixelDensity := pixelDensityValue
        shadowMapEnabled := rc.shadowMap.enabled
        shadowMapType :=
          if rc.shadowMap.enabled then getShadowMapType rc.shadowMap.type
          else ShadowMapType.PCFShadowMap
        toneMapping := getToneMapping rc.toneMapping
        toneMappingExposure := rc.toneMappingExposure
        attachedTo := target }
    .ok ({ s with renderer := some r },
         [Event.setRendererSize env.innerWidth env.innerHeight,
          Event.domAppendRenderer target])

/-- `init`: the five construction steps in source order. -/
def init (env : Env) (s : ThreeState) : OpResult :=
  andThen (andThen (andThen (andThen (createScene s)
    (fun s1 => createCamera env s1)) createGeometryOp) createLights)
    (fun s4 => createRenderer env s4)

/-- The rotation update inside `animate`: `this.mesh.rotation` incremented
by the configured per-axis deltas times speed.  When `this.mesh` refers to
the brain group the update lands on the group object (in JS the two fields
alias the same object; the id guard keeps the translation total). -/
def rotateMesh (s : ThreeState) : ThreeState :=
  let r := s.config.animation.rotation
  let speed := s.config.animation.speed
  match s.mesh with
  | some (MeshRef.primRef m) =>
    { s with mesh := some (MeshRef.primRef
        { m with rotation :=
            { x := m.rotation.x + r.x * speed
              y := m.rotation.y + r.y * speed
              z := m.rotation.z + r.z * speed } }) }
  | some (MeshRef.groupRef gid) =>
    match s.brainGroup with
    | some g =>
      if g.id = gid then
        let rotated : Group :=
          { g with rotation :=
              { x := g.rotation.x + r.x * speed
                y := g.rotation.y + r.y * speed
                z := g.rotation.z + r.z * speed } }
        { s with brainGroup := some rotated }
      else s
    | none => s
  | none => s

/-- One step of `animate` (`main.js` lines 679-700): guard on
`animation.enabled`, register the next animation-frame callback (storing
its id), optionally rotate the mesh, then render (and render labels when
the overlay exists).  The re-invocation of `animate` happens through the
registered callback, i.e. as a later step. -/
def animate (s : ThreeState) : OpResult :=
  if s.config.animation.enabled = false then .ok (s, [])
  else
    let rafId := s.nextId
    let s1 := { s with animationId := some rafId, nextId := s.nextId + 1 }
    let s2 :=
      if s1.config.animation.autoRotate ∧ s1.mesh.isSome then rotateMesh s1 else s1
    let renderEvents :=
      if s2.renderer.isSome ∧ s2.scene.isSome ∧ s2.camera.isSome then
        [Event.renderFrame] ++
          (if s2.labelRenderer.isSome then [Event.labelRenderFrame] else [])
      else []
    .ok (s2, [Event.rafRegister rafId] ++ renderEvents)

/-- The `handleResize` method as called from the constructor: it defines
`this.resizeHandler` and registers it as a window resize listener. -/
def handleResizeRegister (s : ThreeState) : OpResult :=
  .ok ({ s with resizeHandler := true }, [Event.addResizeListener])

/-- The `ThreeJSScene` constructor: initial field values, `init()`, one
`animate()` call when animation is enabled, then `handleResize()`. -/
def construct (env : Env) (config : SceneConfig) : OpResult :=
  andThen (andThen (init env { config := config })
    (fun s => if s.config.animation.enabled then animate s else .ok (s, [])))
    handleResizeRegister

/-- The camera branch of the resize handler (`main.js` lines 706-720):
aspect update for a perspective camera (`fov` defined), recomputed bounds
for an orthographic one (`left` defined), from the `orthographic` config
block and the new window size. -/
def resizeCamera (cfg : SceneConfig) (env : Env) : Camera → Camera
  | Camera.persp c =>
    Camera.persp { c with aspect := env.innerWidth / env.innerHeight }
  | Camera.ortho c =>
    let oc := cfg.camera.orthographic
    let aspect := env.innerWidth / env.innerHeight
    let width := jsOrNum (abs (oc.right - oc.left)) (env.innerWidth / 2)
    let height := jsOrNum (abs (oc.top - oc.bottom)) (env.innerHeight / 2)
    Camera.ortho { c with
      left := -(width * aspect)
      right := width * aspect
      top := height
      bottom := -height }

/-- One invocation of the resize-event handler (the closure installed by
`handleResize`, `main.js` lines 703-728): when both camera and renderer
exist it updates the camera projection and recomputes the projection
matrix, resizes the renderer, and resizes the label overlay when present;
otherwise it does nothing. -/
def onResize (env : Env) (s : ThreeState) : OpResult :=
  match s.camera, s.renderer with
  | some cam, some r =>
    let camUpdated : Camera := resizeCamera s.config env cam
    let rendererResized : Renderer :=
      { r with width := env.innerWidth, height := env.innerHeight }
    let labelPart : Option LabelRenderer × List Event :=
      match s.labelRenderer with
      | some lr =>
        (some { lr with width := env.innerWidth, height := env.innerHeight },
         [Event.setLabelRendererSize env.innerWidth env.innerHeight])
      | none => (none, [])
    .ok ({ s with
            camera := some camUpdated
            renderer := some rendererResized
            labelRenderer := labelPart.1 },
         [Event.updateProjection,
          Event.setRendererSize env.innerWidth env.innerHeight] ++ labelPart.2)
  | _, _ => .ok (s, [])

/-! ## Disposal (`dispose`, `main.js` lines 732-792)

Every step of `dispose` is a guarded release that mutates nothing except
clearing `this.labels`, so the translation computes the emitted release
events per resource field.  The guards of the source (`if (this.mesh)`,
`if (this.mesh.geometry)`, `Array.isArray`, ...) appear as the matches
below. -/

/-- `this.lights.forEach(light => { if (light.dispose) light.dispose() })`;
every Three.js light has a `dispose` method, so the inner guard always
passes. -/
def lightsDisposeEvents (ls : List LightObj) : List Event :=
  ls.map (fun l => Event.disposeLight l.id)

/-- The mesh step: a primitive mesh has a geometry and a single material
(as built by `createMaterial`); when `this.mesh` refers to the brain group
both `this.mesh.geometry` and `this.mesh.material` are undefined and the
guards skip. -/
def meshDisposeEvents (m : Option MeshRef) : List Event :=
  match m with
  | none => []
  | some (MeshRef.primRef mesh) =>
    [Event.disposeGeometry mesh.geometry.id,
     Event.disposeMaterialEvt mesh.material.id]
  | some (MeshRef.groupRef _) => []

/-- Effect of the brain-group `traverse` on one GLTF node: dispose its
geometry and material(s) when present (plain `dispose()`, not the texture
helper). -/
def gltfNodeDisposeEvents (n : GltfNode) : List Event :=
  (match n.geometry with
   | some gid => [Event.disposeGeometry gid]
   | none => []) ++
  (match n.material with
   | GltfMaterialSlot.noMat => []
   | GltfMaterialSlot.single m => [Event.disposeMaterialEvt m.id]
   | GltfMaterialSlot.array ms => ms.map (fun m => Event.disposeMaterialEvt m.id))

/-- Effect of the brain-group `traverse` on one direct child: labels
(`CSS2DObject`) have neither geometry nor material; markers and lines have
both; a loaded model contributes all its nodes. -/
def groupChildDisposeEvents : GroupChild → List Event
  | GroupChild.labelChild _ => []
  | GroupChild.meshChild m =>
    [Event.disposeGeometry m.geometry.id, Event.disposeMaterialEvt m.material.id]
  | GroupChild.lineChild ln =>
    [Event.disposeGeometry ln.geometryId, Event.disposeMaterialEvt ln.material.id]
  | GroupChild.modelChild g => (g.nodes.map gltfNodeDisposeEvents).flatten

/-- `this.brainGroup.traverse(...)`: the group object itself has neither
geometry nor material; all children are visited. -/
def groupDisposeEvents (g : Group) : List Event :=
  (g.children.map groupChildDisposeEvents).flatten

/-- Label removal: the element is removed from the DOM only when it has a
parent node. -/
def labelsRemoveEvents (ls : List Label) : List Event :=
  (ls.map (fun l =>
    if l.elementAttached then [Event.removeLabelElement l.id] else [])).flatten

/-- `dispose()`: cancel the pending animation frame, remove the resize
listener, release lights, mesh resources, brain-group resources, label
elements (clearing `this.labels`), the label-renderer DOM element, and the
renderer — each step guarded by a null/emptiness check.  No other field is
cleared. -/
def disposeE (s : ThreeState) : OpResult :=
  let e1 :=
    match s.animationId with
    | some i => [Event.cancelRAF i]
    | none => []
  let e2 := if s.resizeHandler then [Event.removeResizeListener] else []
  let e3 := lightsDisposeEvents s.lights
  let e4 := meshDisposeEvents s.mesh
  let e5 :=
    match s.brainGroup with
    | some g => groupDisposeEvents g
    | none => []
  let e6 := labelsRemoveEvents s.labels
  let e7 :=
    match s.labelRenderer with
    | some lr =>
      match lr.attached with
      | some _ => [Event.removeLabelRendererDom]
      | none => []
    | none => []
  let e8 :=
    match s.renderer with
    | some _ => [Event.disposeRenderer]
    | none => []
  .ok ({ s with labels := [] }, e1 ++ e2 ++ e3 ++ e4 ++ e5 ++ e6 ++ e7 ++ e8)

/-- `updateConfig(newConfig)` (`main.js` lines 795-802): shallow-merge the
argument over the stored configuration, then full dispose, full rebuild,
and a restart of the animation loop when animation is enabled.  There is
no incremental path and no catch around the rebuild: an error in `init`
or `animate` propagates through `andThen`. -/
def updateConfig (env : Env) (newConfig : PartialConfig) (s : ThreeState) : OpResult :=
  andThen (andThen
      (disposeE { s with config := mergeConfig s.config newConfig })
      (init env))
    (fun s2 => if s2.config.animation.enabled then animate s2 else .ok (s2, []))

/-! ## The asynchronous model-load completion callback
(revision `src/unnamed/part_002`, `createBrainGeometry` lines 310-406 and
the `disposeMaterial` helper lines 1097-1115) -/

/-- The sixteen texture-slot names checked by `disposeMaterial`. -/
def textureProperties : List String :=
  ["map", "lightMap", "bumpMap", "normalMap", "specularMap",
   "envMap", "alphaMap", "aoMap", "displacementMap", "emissiveMap",
   "gradientMap", "metalnessMap", "roughnessMap", "clearcoatMap",
   "clearcoatNormalMap", "clearcoatRoughnessMap"]

/-- `disposeMaterial(material)`: dispose every texture held in one of the
sixteen slots, then the material itself. -/
def disposeMaterialEvents (material : MaterialObj) : List Event :=
  (textureProperties.map (fun prop =>
    match material.textures.lookup prop with
    | some tid => [Event.disposeTexture tid]
    | none => [])).flatten ++ [Event.disposeMaterialEvt material.id]

/-- The stale branch of the load callback, per traversed node: meshes get
their geometry disposed (when present) and their material(s) released via
`disposeMaterial`. -/
def staleNodeDisposeEvents (n : GltfNode) : List Event :=
  if n.isMesh then
    (match n.geometry with
     | some gid => [Event.disposeGeometry gid]
     | none => []) ++
    (match n.material with
     | GltfMaterialSlot.noMat => []
     | GltfMaterialSlot.single m => disposeMaterialEvents m
     | GltfMaterialSlot.array ms => (ms.map disposeMaterialEvents).flatten)
  else []

/-- The brain material applied to every mesh of a freshly loaded model
(`MeshPhysicalMaterial` with the anatomical-cortex parameters; unset
properties keep their Three.js defaults). -/
def brainMaterialSpec : MaterialSpec :=
  { kind := MaterialKind.physical
    color := 0xd4a59a
    metalness := 0
    roughness := 0.85
    transparent := false
    side := MaterialSide.DoubleSide
    clearcoat := 0.1
    clearcoatRoughness := 0.8 }

/-- The fresh-branch `traverse`: every mesh node receives a new brain
material (one fresh material per mesh) and has its shadow flags set. -/
def replaceBrainMaterials (nodes : List GltfNode) (nid : Nat) :
    List GltfNode × Nat :=
  match nodes with
  | [] => ([], nid)
  | n :: rest =>
    if n.isMesh then
      let n2 := { n with
        material := GltfMaterialSlot.single { id := nid, spec := brainMaterialSpec }
        castShadow := true
        receiveShadow := true }
      let (rest2, nid2) := replaceBrainMaterials rest (nid + 1)
      (n2 :: rest2, nid2)
    else
      let (rest2, nid2) := replaceBrainMaterials rest nid
      (n :: rest2, nid2)

/-- If no label renderer exists yet, `createBrainLabels` creates the CSS2D
overlay, sizes it to the window and appends it to `#app` or the body. -/
def ensureLabelRenderer (env : Env) (s : ThreeState) : ThreeState × List Event :=
  match s.labelRenderer with
  | some _ => (s, [])
  | none =>
    let target := if env.appExists then DomTarget.appDiv else DomTarget.body
    let lr : LabelRenderer :=
      { width := env.innerWidth, height := env.innerHeight, attached := some target }
    ({ s with labelRenderer := some lr },
     [Event.setLabelRendererSize env.innerWidth env.innerHeight,
      Event.domAppendLabelRenderer target])

/-- One iteration of the `regions.forEach` in `createBrainLabels`
(revision `src/unnamed/part_002`): a label added to the group and pushed
onto `this.labels`, a marker mesh (`SphereGeometry(5, 16, 16)` with basic
cyan material) placed a quarter of the way to the label, and a line from
marker to label.  The unspecified sphere parameters keep their Three.js
defaults. -/
def addRegionLabel (region : BrainRegion) (s : ThreeState) : OpResult :=
  match jsDeref s.brainGroup "this.brainGroup" with
  | .error e => .error e
  | .ok g =>
    let label : Label :=
      { id := s.nextId, name := region.name,
        description := region.description, position := region.position }
    let markerGeom : GeometryObj :=
      { id := s.nextId + 1,
        call := GeometryCall.sphereGeometry 5 16 16 0 (jsMathPI * 2) 0 jsMathPI }
    let markerMat : MaterialObj :=
      { id := s.nextId + 2,
        spec := { kind := MaterialKind.basic, color := 0x00cccc,
                  transparent := true, opacity := 0.85 } }
    let markerPos : Vec3 :=
      { x := region.position.x * 0.25
        y := region.position.y * 0.25
        z := region.position.z * 0.25 }
    let marker : Mesh :=
      { id := s.nextId + 3, geometry := markerGeom, material := markerMat,
        position := markerPos }
    let lineMat : MaterialObj :=
      { id := s.nextId + 5,
        spec := { kind := MaterialKind.basic, color := 0x00aaaa,
                  transparent := true, opacity := 0.35 } }
    let line : LineObj :=
      { id := s.nextId + 6, geometryId := s.nextId + 4,
        pointA := markerPos, pointB := region.position, material := lineMat }
    let g2 := { g with children := g.children ++
      [GroupChild.labelChild label, GroupChild.meshChild marker,
       GroupChild.lineChild line] }
    .ok ({ s with
            brainGroup := some g2
            labels := s.labels ++ [label]
            nextId := s.nextId + 7 }, [])

/-- The `regions.forEach` loop of `createBrainLabels`. -/
def addRegionLabels (regions : List BrainRegion) (s : ThreeState) : OpResult :=
  match regions with
  | [] => .ok (s, [])
  | region :: rest => andThen (addRegionLabel region s) (addRegionLabels rest)

/-- `createBrainLabels(regions)` of revision `src/unnamed/part_002`. -/
def createBrainLabels (env : Env) (regions : List BrainRegion)
    (s : ThreeState) : OpResult :=
  let first := ensureLabelRenderer env s
  andThen (.ok first) (addRegionLabels regions)

/-- The GLTF load completion callback of `createBrainGeometry` in revision
`src/unnamed/part_002`: when its captured version no longer matches
`this.loadingVersion` it only logs and disposes every geometry and
material of the late-arriving scene (via `disposeMaterial`), leaving the
orchestrator state untouched; otherwise it centers and scales the model
(`Math.max` of the bounding-box extents), applies the brain material,
adds the model to the brain group, sets `this.mesh` to the brain group,
and creates the region labels when `showLabels` is set. -/
def brainOnLoad (env : Env) (currentVersion : Nat) (gltf : GltfScene)
    (s : ThreeState) : OpResult :=
  if currentVersion ≠ s.loadingVersion then
    .ok (s, Event.logMsg "Disposing stale GLTF model to prevent memory leak" ::
      (gltf.nodes.map staleNodeDisposeEvents).flatten)
  else
    let brainConfig := s.config.geometry.brain
    let center := gltf.center
    let size := gltf.size
    let maxDim := max (max size.x size.y) size.z
    let scale := brainConfig.scale * 2 / maxDim
    let nodesResult := replaceBrainMaterials gltf.nodes s.nextId
    let model : GltfScene :=
      { gltf with position := gltf.position.sub center
                  scaleScalar := scale
                  nodes := nodesResult.1 }
    match jsDeref s.brainGroup "this.brainGroup" with
    | .error e => .error e
    | .ok g =>
      let g2 := { g with children := g.children ++ [GroupChild.modelChild model] }
      let s2 := { s with
                  brainGroup := some g2
                  mesh := some (MeshRef.groupRef g.id)
                  nextId := nodesResult.2 }
      if brainConfig.showLabels then createBrainLabels env brainConfig.regions s2
      else .ok (s2, [])

/-! ## Spec-side definitions and concrete fixtures used by the theorems -/

/-- Spec-side comparator: the basic material variant built from the common
parameters, which the spec documents as the fallback for an unrecognized
`material.type`. -/
def basicFromCommonParams (materialConfig : MaterialCfg) : MaterialSpec :=
  { kind := MaterialKind.basic
    color := materialConfig.color
    wireframe := materialConfig.wireframe
    transparent := materialConfig.transparent
    opacity := materialConfig.opacity
    side := getMaterialSide materialConfig.side
    map := loadTextureObj materialConfig.texture }

/-- The materials held by a GLTF material slot. -/
def slotMaterials : GltfMaterialSlot → List MaterialObj
  | GltfMaterialSlot.noMat => []
  | GltfMaterialSlot.single m => [m]
  | GltfMaterialSlot.array ms => ms

/-- Number of meshes added to the root scene in a trace. -/
def countMeshAdds : List Event → Nat
  | [] => 0
  | Event.sceneAdd (SceneChildRef.meshRefC _) :: rest => countMeshAdds rest + 1
  | _ :: rest => countMeshAdds rest

/-- Number of animation-frame registrations in a trace. -/
def countRafRegisters : List Event → Nat
  | [] => 0
  | Event.rafRegister _ :: rest => countRafRegisters rest + 1
  | _ :: rest => countRafRegisters rest

/-- Number of dispose calls on the light with the given id in a trace. -/
def countDisposeLight (i : Nat) : List Event → Nat
  | [] => 0
  | Event.disposeLight j :: rest =>
    (if j = i then 1 else 0) + countDisposeLight i rest
  | _ :: rest => countDisposeLight i rest

/-- A standard browser environment for concrete runs. -/
def envStd : Env :=
  { innerWidth := 1920, innerHeight := 1080, deviceDensity := 2, appExists := true }

/-- The default configuration with `geometry.type` switched to
`'torusKnot'` (the configuration described by the spec's example). -/
def torusKnotConfig : SceneConfig :=
  { sceneConfig with geometry := { sceneConfig.geometry with type := "torusKnot" } }

/-- A configuration whose only created sub-object is the ambient light:
geometry, camera, renderer and animation disabled, directional and spot
lights disabled. -/
def cfgLightsOnly : SceneConfig :=
  { sceneConfig with
      geometry := { sceneConfig.geometry with enabled := false }
      animation := { sceneConfig.animation with enabled := false }
      camera := { sceneConfig.camera with enabled := false }
      renderer := { sceneConfig.renderer with enabled := false }
      lighting := { sceneConfig.lighting with
        directional := { sceneConfig.lighting.directional with enabled := false }
        spot := { sceneConfig.lighting.spot with enabled := false } } }

/-- A freshly constructed-field state: every resource field null, lights
and labels empty. -/
def stateNull : ThreeState := { config := sceneConfig }

/-- A state whose configured geometry type is unrecognized. -/
def stateUnknownGeom : ThreeState :=
  { config := { sceneConfig with
      geometry := { sceneConfig.geometry with type := "cylinder" } } }

/-- A material configuration with an unrecognized type. -/
def unknownMaterialCfg : MaterialCfg :=
  { sceneConfig.material with type := "glass" }

/-- A material configuration with the material section disabled. -/
def disabledMaterialCfg : MaterialCfg :=
  { sceneConfig.material with enabled := false }

/-- A state holding an (empty) root scene. -/
def stateWithScene : ThreeState :=
  { config := sceneConfig, scene := some {} }

/-- A sample renderer (as `createRenderer` would build it at `envStd` with
the default renderer section). -/
def rendererSample : Renderer :=
  { antialias := true
    alpha := false
    clearColor := 0x000000
    clearAlpha := 1
    width := 1920
    height := 1080
    pixelDensity := 2
    shadowMapEnabled := true
    shadowMapType := ShadowMapType.PCFShadowMap
    toneMapping := ToneMappingType.ACESFilmicToneMapping
    toneMappingExposure := 1
    attachedTo := DomTarget.appDiv }

/-- A sample perspective camera. -/
def perspCamSample : PerspCamera :=
  { fov := 75, aspect := 16 / 9, near := 1, far := 10000
    position := { x := 0, y := 50, z := 800 }
    rotation := { x := 0, y := 0, z := 0 } }

/-- A state holding a perspective camera and a renderer (for resize runs). -/
def stateWithCameraRenderer : ThreeState :=
  { config := sceneConfig
    camera := some (Camera.persp perspCamSample)
    renderer := some rendererSample }

/-- A state holding one ambient light. -/
def stateWithLight : ThreeState :=
  { config := sceneConfig
    lights := [LightObj.ambientLight 1 0x404040 0.8] }

/-- A state in the middle of a second model load: `loadingVersion` has
moved on to 2 while an old callback captured version 1. -/
def stateStaleLoad : ThreeState :=
  { config := sceneConfig
    brainGroup := some { id := 7 }
    loadingVersion := 2
    pendingLoads := [("/models/brain.glb", 1), ("/models/brain.glb", 2)] }

/-- A loader-imported material (id 200) holding a map texture (id 300). -/
def gltfMaterialSample : MaterialObj :=
  { id := 200, spec := { kind := MaterialKind.gltfImported }
    textures := [("map", 300)] }

/-- A mesh node of a loaded GLTF scene (geometry id 100). -/
def gltfMeshNodeSample : GltfNode :=
  { id := 10, isMesh := true, geometry := some 100
    material := GltfMaterialSlot.single gltfMaterialSample }

/-- A late-arriving GLTF scene with one mesh node and one non-mesh node. -/
def gltfSample : GltfScene :=
  { nodes :=
      [ gltfMeshNodeSample,
        { id := 11, isMesh := false, geometry := none
          material := GltfMaterialSlot.noMat } ]
    center := { x := 0, y := 0, z := 0 }
    size := { x := 2, y := 2, z := 2 } }

/-! ## Theorems settling the claims -/

/-- Claim C3, counterexample: the configuration described by the claim
(`geometry.type = 'torusKnot'`) is not the repository's default
configuration — `config.js` sets `geometry.type` to `'brain'`. -/
theorem C3_default_config_counterexample :
    sceneConfig.geometry.type = "brain" ∧ sceneConfig.geometry.type ≠ "torusKnot" :=
  ⟨rfl, by decide⟩

/-- Claim C3 (amended): with the default configuration modified only by
setting `geometry.type = 'torusKnot'` (the default torus-knot parameters
are radius 200, tube 60, tubularSegments 100, radialSegments 16, p 2, q 3,
and animation is enabled by default), construction adds exactly one mesh
to the scene and registers exactly one animation callback; the
repository's default configuration itself has `geometry.type = 'brain'`. -/
theorem C3_torusKnot_construction (env : Env) :
    sceneConfig.geometry.type = "brain" ∧
    sceneConfig.geometry.torusKnot =
      { radius := 200, tube := 60, tubularSegments := 100,
        radialSegments := 16, p := 2, q := 3 } ∧
    sceneConfig.animation.enabled = true ∧
    ∃ s evs, construct env torusKnotConfig = Except.ok (s, evs) ∧
      countMeshAdds evs = 1 ∧ countRafRegisters evs = 1 := by
  refine ⟨rfl, rfl, rfl, _, _, rfl, ?_, ?_⟩ <;>
    simp [countMeshAdds, countRafRegisters]

/-- Witness for C3's amended statement at the standard environment. -/
theorem C3_torusKnot_construction_witness :
    sceneConfig.geometry.type = "brain" ∧
    sceneConfig.geometry.torusKnot =
      { radius := 200, tube := 60, tubularSegments := 100,
        radialSegments := 16, p := 2, q := 3 } ∧
    sceneConfig.animation.enabled = true ∧
    ∃ s evs, construct envStd torusKnotConfig = Except.ok (s, evs) ∧
      countMeshAdds evs = 1 ∧ countRafRegisters evs = 1 :=
  C3_torusKnot_construction envStd

/-- Claim C5: `dispose()` on a state whose resource fields are all null
and whose lights/labels are empty does not throw — it returns normally,
leaves the state unchanged, and emits nothing but the (guarded) resize
listener removal. -/
theorem C5_dispose_null_safe (s : ThreeState)
    (h1 : s.animationId = none) (h2 : s.mesh = none) (h3 : s.brainGroup = none)
    (h4 : s.labelRenderer = none) (h5 : s.renderer = none)
    (h6 : s.lights = []) (h7 : s.labels = []) :
    disposeE s = Except.ok (s,
      if s.resizeHandler then [Event.removeResizeListener] else []) := by
  obtain ⟨c, sc, cam, r, lr, li, me, bg, la, ai, rh, lv, pl, ni⟩ := s
  simp_all [disposeE, lightsDisposeEvents, meshDisposeEvents, labelsRemoveEvents]

/-- Witness for C5 at the all-null state. -/
theorem C5_dispose_null_safe_witness :
    disposeE stateNull = Except.ok (stateNull,
      if stateNull.resizeHandler then [Event.removeResizeListener] else []) :=
  C5_dispose_null_safe stateNull rfl rfl rfl rfl rfl rfl rfl

/-- Claim C10: when the camera or the renderer is absent, the resize
handler is a no-op — the state (camera, renderer, label overlay) is
unchanged and no event is emitted. -/
theorem C10_resize_noop_without_camera_or_renderer (env : Env) (s : ThreeState)
    (h : s.camera = none ∨ s.renderer = none) :
    onResize env s = Except.ok (s, []) := by
  rcases h with h | h
  · unfold onResize
    rw [h]
  · cases hc : s.camera with
    | none =>
      unfold onResize
      rw [hc]
    | some cam =>
      unfold onResize
      rw [hc, h]

/-- Witness for C10: a resize with no camera and no renderer changes
nothing. -/
theorem C10_resize_noop_witness :
    onResize envStd stateNull = Except.ok (stateNull, []) :=
  C10_resize_noop_without_camera_or_renderer envStd stateNull (Or.inl rfl)

/-- Claim C4: for an unrecognized `geometry.type`, `createGeometry`
creates nothing and only warns (the state is returned unchanged); an
unrecognized `material.type` yields the basic variant built from the
common parameters; an unrecognized shadow-map type yields the basic
shadow map; an unrecognized tone-mapping value yields the ACES filmic
default. -/
theorem C4_unknown_enum_fallbacks (s : ThreeState) (m : MaterialCfg)
    (t2 t3 : String)
    (hen : s.config.geometry.enabled = true)
    (hg : s.config.geometry.type ∉
      ["torusKnot", "box", "sphere", "torus", "octahedron", "tetrahedron",
       "icosahedron", "brain"])
    (hm : m.enabled = true)
    (hmt : m.type ∉ ["basic", "standard", "phong", "lambert", "toon", "physical"])
    (hst : t2 ∉ ["basic", "pcf", "pcfSoft", "vsm"])
    (htm : t3 ∉ ["linear", "reinhard", "cineon", "aces", "neutral"]) :
    createGeometryOp s = Except.ok (s,
      [Event.warn ("Unknown geometry type: " ++ s.config.geometry.type)]) ∧
    createMaterialSpec m = basicFromCommonParams m ∧
    getShadowMapType t2 = ShadowMapType.BasicShadowMap ∧
    getToneMapping t3 = ToneMappingType.ACESFilmicToneMapping := by
  simp only [List.mem_cons, List.mem_singleton, not_or] at hg hmt hst htm
  obtain ⟨g1, g2, g3, g4, g5, g6, g7, g8⟩ := hg
  obtain ⟨m1, m2, m3, m4, m5, m6⟩ := hmt
  obtain ⟨sh1, sh2, sh3, sh4⟩ := hst
  obtain ⟨tm1, tm2, tm3, tm4, tm5⟩ := htm
  refine ⟨?_, ?_, ?_, ?_⟩
  · simp [createGeometryOp, hen, g1, g2, g3, g4, g5, g6, g7, g8]
  · simp [createMaterialSpec, basicFromCommonParams, hm, m1, m2, m3, m4, m5, m6]
  · simp [getShadowMapType, sh2, sh3, sh4]
  · simp [getToneMapping, tm1, tm2, tm3, tm4, tm5]

/-- Witness for C4 at an unrecognized geometry type (`'cylinder'`), an
unrecognized material type (`'glass'`), and unrecognized shadow/tone
strings. -/
theorem C4_unknown_enum_fallbacks_witness :
    createGeometryOp stateUnknownGeom = Except.ok (stateUnknownGeom,
      [Event.warn ("Unknown geometry type: " ++ stateUnknownGeom.config.geometry.type)]) ∧
    createMaterialSpec unknownMaterialCfg = basicFromCommonParams unknownMaterialCfg ∧
    getShadowMapType "soft" = ShadowMapType.BasicShadowMap ∧
    getToneMapping "filmic" = ToneMappingType.ACESFilmicToneMapping :=
  C4_unknown_enum_fallbacks stateUnknownGeom unknownMaterialCfg "soft" "filmic"
    (by decide) (by decide) (by decide) (by decide) (by decide) (by decide)

/-- Claim C9: `createMaterial` is total — a disabled material section
yields the plain white basic material, an unrecognized type yields the
basic variant from the common parameters, and every mesh built by the
`createGeometry` tail carries the material created from the material
section. -/
theorem C9_createMaterial_total (m1 m2 : MaterialCfg) (s : ThreeState)
    (sc : SceneObj) (call : GeometryCall)
    (hd : m1.enabled = false)
    (he : m2.enabled = true)
    (ht : m2.type ∉ ["basic", "standard", "phong", "lambert", "toon", "physical"])
    (hsc : s.scene = some sc) :
    createMaterialSpec m1 = { kind := MaterialKind.basic, color := 0xffffff } ∧
    createMaterialSpec m2 = basicFromCommonParams m2 ∧
    ∃ s2 evs mesh, finishMesh s call = Except.ok (s2, evs) ∧
      s2.mesh = some (MeshRef.primRef mesh) ∧
      mesh.material.spec = createMaterialSpec s.config.material := by
  simp only [List.mem_cons, List.mem_singleton, not_or] at ht
  obtain ⟨t1, t2, t3, t4, t5, t6⟩ := ht
  refine ⟨?_, ?_, ?_⟩
  · simp [createMaterialSpec, hd]
  · simp [createMaterialSpec, basicFromCommonParams, he, t1, t2, t3, t4, t5, t6]
  · unfold finishMesh
    rw [hsc]
    exact ⟨_, _, _, rfl, rfl, rfl⟩

/-- Witness for C9 at a disabled material section, the unrecognized
`'glass'` material type, and a state holding a scene. -/
theorem C9_createMaterial_total_witness :
    createMaterialSpec disabledMaterialCfg =
      { kind := MaterialKind.basic, color := 0xffffff } ∧
    createMaterialSpec unknownMaterialCfg = basicFromCommonParams unknownMaterialCfg ∧
    ∃ s2 evs mesh,
      finishMesh stateWithScene (GeometryCall.boxGeometry 1 2 3 4 5 6) =
        Except.ok (s2, evs) ∧
      s2.mesh = some (MeshRef.primRef mesh) ∧
      mesh.material.spec = createMaterialSpec stateWithScene.config.material :=
  C9_createMaterial_total disabledMaterialCfg unknownMaterialCfg stateWithScene
    {} (GeometryCall.boxGeometry 1 2 3 4 5 6) (by decide) (by decide) (by decide) rfl

/-- Claim C6: for each of the seven supported primitive geometry types,
constructing the orchestrator with that type (and geometry enabled, as in
the default configuration) invokes the corresponding primitive geometry
constructor with exactly the configured parameters in positional order. -/
theorem C6_geometry_constructor_params (env : Env) :
    (∀ r tb ts rs p q : Num, ∃ s evs mesh,
      construct env { sceneConfig with geometry := { sceneConfig.geometry with
        type := "torusKnot"
        torusKnot := { radius := r, tube := tb, tubularSegments := ts,
                       radialSegments := rs, p := p, q := q } } } =
        Except.ok (s, evs) ∧
      s.mesh = some (MeshRef.primRef mesh) ∧
      mesh.geometry.call = GeometryCall.torusKnotGeometry r tb ts rs p q) ∧
    (∀ w h d ws hs ds : Num, ∃ s evs mesh,
      construct env { sceneConfig with geometry := { sceneConfig.geometry with
        type := "box"
        box := { width := w, height := h, depth := d, widthSegments := ws,
                 heightSegments := hs, depthSegments := ds } } } =
        Except.ok (s, evs) ∧
      s.mesh = some (MeshRef.primRef mesh) ∧
      mesh.geometry.call = GeometryCall.boxGeometry w h d ws hs ds) ∧
    (∀ r ws hs ps pl ts tl : Num, ∃ s evs mesh,
      construct env { sceneConfig with geometry := { sceneConfig.geometry with
        type := "sphere"
        sphere := { radius := r, widthSegments := ws, heightSegments := hs,
                    phiStart := ps, phiLength := pl, thetaStart := ts,
                    thetaLength := tl } } } =
        Except.ok (s, evs) ∧
      s.mesh = some (MeshRef.primRef mesh) ∧
      mesh.geometry.call = GeometryCall.sphereGeometry r ws hs ps pl ts tl) ∧
    (∀ r tb rs ts arc : Num, ∃ s evs mesh,
      construct env { sceneConfig with geometry := { sceneConfig.geometry with
        type := "torus"
        torus := { radius := r, tube := tb, radialSegments := rs,
                   tubularSegments := ts, arc := arc } } } =
        Except.ok (s, evs) ∧
      s.mesh = some (MeshRef.primRef mesh) ∧
      mesh.geometry.call = GeometryCall.torusGeometry r tb rs ts arc) ∧
    (∀ r d : Num, ∃ s evs mesh,
      construct env { sceneConfig with geometry := { sceneConfig.geometry with
        type := "octahedron"
        octahedron := { radius := r, detail := d } } } =
        Except.ok (s, evs) ∧
      s.mesh = some (MeshRef.primRef mesh) ∧
      mesh.geometry.call = GeometryCall.octahedronGeometry r d) ∧
    (∀ r d : Num, ∃ s evs mesh,
      construct env { sceneConfig with geometry := { sceneConfig.geometry with
        type := "tetrahedron"
        tetrahedron := { radius := r, detail := d } } } =
        Except.ok (s, evs) ∧
      s.mesh = some (MeshRef.primRef mesh) ∧
      mesh.geometry.call = GeometryCall.tetrahedronGeometry r d) ∧
    (∀ r d : Num, ∃ s evs mesh,
      construct env { sceneConfig with geometry := { sceneConfig.geometry with
        type := "icosahedron"
        icosahedron := { radius := r, detail := d } } } =
        Except.ok (s, evs) ∧
      s.mesh = some (MeshRef.primRef mesh) ∧
      mesh.geometry.call = GeometryCall.icosahedronGeometry r d) :=
  ⟨fun _ _ _ _ _ _ => ⟨_, _, _, rfl, rfl, rfl⟩,
   fun _ _ _ _ _ _ => ⟨_, _, _, rfl, rfl, rfl⟩,
   fun _ _ _ _ _ _ _ => ⟨_, _, _, rfl, rfl, rfl⟩,
   fun _ _ _ _ _ => ⟨_, _, _, rfl, rfl, rfl⟩,
   fun _ _ => ⟨_, _, _, rfl, rfl, rfl⟩,
   fun _ _ => ⟨_, _, _, rfl, rfl, rfl⟩,
   fun _ _ => ⟨_, _, _, rfl, rfl, rfl⟩⟩

/-- Witness for C6 at the standard environment and concrete torus-knot
parameters. -/
theorem C6_geometry_constructor_params_witness :
    ∃ s evs mesh,
      construct envStd { sceneConfig with geometry := { sceneConfig.geometry with
        type := "torusKnot"
        torusKnot := { radius := 7, tube := 2, tubularSegments := 64,
                       radialSegments := 8, p := 2, q := 3 } } } =
        Except.ok (s, evs) ∧
      s.mesh = some (MeshRef.primRef mesh) ∧
      mesh.geometry.call = GeometryCall.torusKnotGeometry 7 2 64 8 2 3 :=
  (C6_geometry_constructor_params envStd).1 7 2 64 8 2 3

/-- Claim C7: on a resize event with both camera and renderer present, the
handler synchronously updates the camera projection parameters to the new
window dimensions (aspect for perspective, left/right/top/bottom bounds
for orthographic, as computed by `resizeCamera`), recomputes the
projection matrix, and sets the renderer's size — and the label overlay's
size when present — to the new window width and height. -/
theorem C7_resize_updates (env : Env) (s : ThreeState) (cam : Camera)
    (r : Renderer) (hc : s.camera = some cam) (hr : s.renderer = some r) :
    onResize env s = Except.ok (
      { s with
          camera := some (resizeCamera s.config env cam)
          renderer := some { r with width := env.innerWidth, height := env.innerHeight }
          labelRenderer := s.labelRenderer.map fun lr =>
            { lr with width := env.innerWidth, height := env.innerHeight } },
      [Event.updateProjection,
       Event.setRendererSize env.innerWidth env.innerHeight] ++
        (if s.labelRenderer.isSome then
          [Event.setLabelRendererSize env.innerWidth env.innerHeight]
         else [])) := by
  unfold onResize
  rw [hc, hr]
  cases hlr : s.labelRenderer <;> simp [hlr]

/-- Witness for C7: a resize at a state holding a perspective camera, a
renderer and no label overlay. -/
theorem C7_resize_updates_witness :
    onResize envStd stateWithCameraRenderer = Except.ok (
      { stateWithCameraRenderer with
          camera := some (resizeCamera stateWithCameraRenderer.config envStd
            (Camera.persp perspCamSample))
          renderer := some { rendererSample with
            width := envStd.innerWidth, height := envStd.innerHeight }
          labelRenderer := stateWithCameraRenderer.labelRenderer.map fun lr =>
            { lr with width := envStd.innerWidth, height := envStd.innerHeight } },
      [Event.updateProjection,
       Event.setRendererSize envStd.innerWidth envStd.innerHeight] ++
        (if stateWithCameraRenderer.labelRenderer.isSome then
          [Event.setLabelRendererSize envStd.innerWidth envStd.innerHeight]
         else [])) :=
  C7_resize_updates envStd stateWithCameraRenderer
    (Camera.persp perspCamSample) rendererSample rfl rfl

/-- The material-dispose event of `disposeMaterial(material)` is in its
event list. -/
theorem mem_disposeMaterialEvents (m : MaterialObj) :
    Event.disposeMaterialEvt m.id ∈ disposeMaterialEvents m := by
  unfold disposeMaterialEvents
  exact List.mem_append_right _ (List.mem_singleton.mpr rfl)

/-- Claim C1: a model-load completion callback whose captured version
differs from the current `loadingVersion` leaves the orchestrator state —
in particular `this.mesh` and `this.brainGroup` — completely unchanged,
and disposes the geometry and the material(s) of every mesh in the
late-arriving GLTF scene before returning. -/
theorem C1_stale_callback_disposes (env : Env) (v : Nat) (gltf : GltfScene)
    (s : ThreeState) (n : GltfNode) (gid : Nat) (mo : MaterialObj)
    (hv : v ≠ s.loadingVersion)
    (hn : n ∈ gltf.nodes) (hmesh : n.isMesh = true)
    (hgid : n.geometry = some gid) (hmo : mo ∈ slotMaterials n.material) :
    ∃ evs, brainOnLoad env v gltf s = Except.ok (s, evs) ∧
      Event.disposeGeometry gid ∈ evs ∧
      Event.disposeMaterialEvt mo.id ∈ evs := by
  unfold brainOnLoad
  rw [if_pos hv]
  refine ⟨_, rfl, ?_, ?_⟩
  · apply List.mem_cons_of_mem
    refine List.mem_flatten.mpr
      ⟨staleNodeDisposeEvents n, List.mem_map_of_mem _ hn, ?_⟩
    simp [staleNodeDisposeEvents, hmesh, hgid]
  · apply List.mem_cons_of_mem
    refine List.mem_flatten.mpr
      ⟨staleNodeDisposeEvents n, List.mem_map_of_mem _ hn, ?_⟩
    cases hslot : n.material with
    | noMat => simp [slotMaterials, hslot] at hmo
    | single m0 =>
      rw [hslot] at hmo
      simp only [slotMaterials, List.mem_singleton] at hmo
      subst hmo
      simp [staleNodeDisposeEvents, hmesh, hslot, mem_disposeMaterialEvents]
    | array ms =>
      rw [hslot] at hmo
      simp only [slotMaterials] at hmo
      have : Event.disposeMaterialEvt mo.id ∈ (ms.map disposeMaterialEvents).flatten :=
        List.mem_flatten.mpr
          ⟨disposeMaterialEvents mo, List.mem_map_of_mem _ hmo,
           mem_disposeMaterialEvents mo⟩
      simp [staleNodeDisposeEvents, hmesh, hslot, this]

/-- Witness for C1: a callback that captured version 1 runs while
`loadingVersion` is already 2; the sample scene's mesh geometry (id 100)
and material (id 200) are disposed and the state is unchanged. -/
theorem C1_stale_callback_disposes_witness :
    ∃ evs, brainOnLoad envStd 1 gltfSample stateStaleLoad =
        Except.ok (stateStaleLoad, evs) ∧
      Event.disposeGeometry 100 ∈ evs ∧
      Event.disposeMaterialEvt gltfMaterialSample.id ∈ evs :=
  C1_stale_callback_disposes envStd 1 gltfSample stateStaleLoad
    gltfMeshNodeSample 100 gltfMaterialSample
    (by decide) (by decide) rfl rfl (by decide)

/-- Claim C2, counterexample: construct with an ambient light only, call
`updateConfig({})`, then `dispose()`.  The light created by the
constructor (id 1) is disposed once by the dispose inside `updateConfig`
and once more by the later dispose call — `dispose` never clears
`this.lights`, so the claim's "each light is disposed exactly once before
recreation" fails. -/
theorem C2_light_disposed_twice_counterexample :
    ∃ s1 e1 s2 e2 s3 e3,
      construct envStd cfgLightsOnly = Except.ok (s1, e1) ∧
      s1.lights.map LightObj.id = [1] ∧
      updateConfig envStd emptyPartialConfig s1 = Except.ok (s2, e2) ∧
      disposeE s2 = Except.ok (s3, e3) ∧
      countDisposeLight 1 e1 = 0 ∧
      countDisposeLight 1 e2 = 1 ∧
      countDisposeLight 1 e3 = 1 :=
  ⟨_, _, _, _, _, _, rfl, rfl, rfl, rfl, rfl, rfl, rfl⟩

/-- Claim C2 (amended): each `dispose()` call releases every light
currently in `this.lights` (and label elements are removed with the
labels array cleared), but `dispose` leaves the lights array — and every
other resource field — in place; consequently a light already disposed by
an earlier `dispose` (e.g. the one inside `updateConfig`) is disposed a
second time by a later `dispose` call, so sub-objects are released at
least once but not exactly once. -/
theorem C2_dispose_releases_but_keeps_lights (s : ThreeState) (l : LightObj)
    (hl : l ∈ s.lights) :
    ∃ evs, disposeE s = Except.ok ({ s with labels := [] }, evs) ∧
      Event.disposeLight (LightObj.id l) ∈ evs ∧
      ({ s with labels := ([] : List Label) } : ThreeState).lights = s.lights := by
  refine ⟨_, rfl, ?_, rfl⟩
  have hm : Event.disposeLight (LightObj.id l) ∈ lightsDisposeEvents s.lights :=
    List.mem_map_of_mem _ hl
  simp only [List.mem_append]
  tauto

/-- Witness for C2's amended statement at a state holding one ambient
light. -/
theorem C2_dispose_releases_witness :
    ∃ evs, disposeE stateWithLight =
        Except.ok ({ stateWithLight with labels := [] }, evs) ∧
      Event.disposeLight (LightObj.id (LightObj.ambientLight 1 0x404040 0.8)) ∈ evs ∧
      ({ stateWithLight with labels := ([] : List Label) } : ThreeState).lights =
        stateWithLight.lights :=
  C2_dispose_releases_but_keeps_lights stateWithLight
    (LightObj.ambientLight 1 0x404040 0.8) (by simp [stateWithLight])

/-! ## Helper lemmas for the update-configuration claim -/

/-- Sequencing a normal result with an operation that returns normally
concatenates the traces. -/
theorem andThen_ok_ok {s : ThreeState} {evs : List Event}
    {f : ThreeState → OpResult} {s2 : ThreeState} {evs2 : List Event}
    (h : f s = Except.ok (s2, evs2)) :
    andThen (Except.ok (s, evs)) f = Except.ok (s2, evs ++ evs2) := by
  have hred : andThen (Except.ok (s, evs)) f =
      (match f s with
       | Except.error e => Except.error e
       | Except.ok (s2, evs2) => Except.ok (s2, evs ++ evs2)) := rfl
  rw [hred, h]

/-- The rotation update never touches the stored configuration. -/
theorem rotateMesh_config (s : ThreeState) : (rotateMesh s).config = s.config := by
  unfold rotateMesh
  cases s.mesh with
  | none => rfl
  | some mr =>
    cases mr with
    | primRef m => rfl
    | groupRef gid =>
      cases s.brainGroup with
      | none => rfl
      | some g => by_cases hid : g.id = gid <;> simp [hid]

/-- `createScene` returns normally, storing a scene. -/
theorem createScene_spec (s : ThreeState) :
    ∃ sc : SceneObj, createScene s = Except.ok ({ s with scene := some sc }, []) :=
  ⟨_, rfl⟩

/-- `createCamera` returns normally, only (possibly) setting the camera. -/
theorem createCamera_spec (env : Env) (s : ThreeState) :
    ∃ c, createCamera env s = Except.ok ({ s with camera := c }, []) := by
  unfold createCamera
  split_ifs <;> exact ⟨_, rfl⟩

/-- When a scene exists, the shared mesh-creation tail returns normally,
preserving the configuration and the existence of the scene. -/
theorem finishMesh_spec (s : ThreeState) (sc : SceneObj) (call : GeometryCall)
    (h : s.scene = some sc) :
    ∃ s2 evs sc2, finishMesh s call = Except.ok (s2, evs) ∧
      s2.config = s.config ∧ s2.scene = some sc2 := by
  unfold finishMesh
  rw [h]
  exact ⟨_, _, _, rfl, rfl, rfl⟩

/-- When a scene exists, the synchronous part of `createBrainGeometry`
returns normally, preserving the configuration and the existence of the
scene. -/
theorem createBrainGeometry_spec (s : ThreeState) (sc : SceneObj)
    (h : s.scene = some sc) :
    ∃ s2 evs sc2, createBrainGeometry s = Except.ok (s2, evs) ∧
      s2.config = s.config ∧ s2.scene = some sc2 := by
  unfold createBrainGeometry
  rw [h]
  exact ⟨_, _, _, rfl, rfl, rfl⟩

/-- When a scene exists, `createGeometry` returns normally, preserving the
configuration and the existence of the scene. -/
theorem createGeometryOp_spec (s : ThreeState) (sc : SceneObj)
    (h : s.scene = some sc) :
    ∃ s2 evs sc2, createGeometryOp s = Except.ok (s2, evs) ∧
      s2.config = s.config ∧ s2.scene = some sc2 := by
  unfold createGeometryOp
  by_cases h1 : s.config.geometry.enabled = false
  · rw [if_pos h1]
    exact ⟨_, _, _, rfl, rfl, h⟩
  rw [if_neg h1]
  by_cases h2 : s.config.geometry.type = "torusKnot"
  · rw [if_pos h2]
    exact finishMesh_spec s sc _ h
  rw [if_neg h2]
  by_cases h3 : s.config.geometry.type = "box"
  · rw [if_pos h3]
    exact finishMesh_spec s sc _ h
  rw [if_neg h3]
  by_cases h4 : s.config.geometry.type = "sphere"
  · rw [if_pos h4]
    exact finishMesh_spec s sc _ h
  rw [if_neg h4]
  by_cases h5 : s.config.geometry.type = "torus"
  · rw [if_pos h5]
    exact finishMesh_spec s sc _ h
  rw [if_neg h5]
  by_cases h6 : s.config.geometry.type = "octahedron"
  · rw [if_pos h6]
    exact finishMesh_spec s sc _ h
  rw [if_neg h6]
  by_cases h7 : s.config.geometry.type = "tetrahedron"
  · rw [if_pos h7]
    exact finishMesh_spec s sc _ h
  rw [if_neg h7]
  by_cases h8 : s.config.geometry.type = "icosahedron"
  · rw [if_pos h8]
    exact finishMesh_spec s sc _ h
  rw [if_neg h8]
  by_cases h9 : s.config.geometry.type = "brain"
  · rw [if_pos h9]
    exact createBrainGeometry_spec s sc h
  rw [if_neg h9]
  exact ⟨_, _, _, rfl, rfl, h⟩

/-- When a scene exists, the ambient-light step returns normally. -/
theorem addAmbientLight_spec (s : ThreeState) (sc : SceneObj)
    (h : s.scene = some sc) :
    ∃ s2 evs sc2, addAmbientLight s = Except.ok (s2, evs) ∧
      s2.config = s.config ∧ s2.scene = some sc2 := by
  unfold addAmbientLight
  rw [h]
  split_ifs <;>
    first
      | exact ⟨_, _, _, rfl, rfl, rfl⟩
      | exact ⟨_, _, _, rfl, rfl, h⟩

/-- When a scene exists, the directional-light step returns normally. -/
theorem addDirectionalLight_spec (s : ThreeState) (sc : SceneObj)
    (h : s.scene = some sc) :
    ∃ s2 evs sc2, addDirectionalLight s = Except.ok (s2, evs) ∧
      s2.config = s.config ∧ s2.scene = some sc2 := by
  unfold addDirectionalLight
  rw [h]
  split_ifs <;>
    first
      | exact ⟨_, _, _, rfl, rfl, rfl⟩
      | exact ⟨_, _, _, rfl, rfl, h⟩

/-- When a scene exists, the hemisphere-light step returns normally. -/
theorem addHemisphereLight_spec (s : ThreeState) (sc : SceneObj)
    (h : s.scene = some sc) :
    ∃ s2 evs sc2, addHemisphereLight s = Except.ok (s2, evs) ∧
      s2.config = s.config ∧ s2.scene = some sc2 := by
  unfold addHemisphereLight
  rw [h]
  split_ifs <;>
    first
      | exact ⟨_, _, _, rfl, rfl, rfl⟩
      | exact ⟨_, _, _, rfl, rfl, h⟩

/-- When a scene exists, the point-light step returns normally. -/
theorem addPointLight_spec (s : ThreeState) (sc : SceneObj)
    (h : s.scene = some sc) :
    ∃ s2 evs sc2, addPointLight s = Except.ok (s2, evs) ∧
      s2.config = s.config ∧ s2.scene = some sc2 := by
  unfold addPointLight
  rw [h]
  split_ifs <;>
    first
      | exact ⟨_, _, _, rfl, rfl, rfl⟩
      | exact ⟨_, _, _, rfl, rfl, h⟩

/-- When a scene exists, the spot-light step returns normally. -/
theorem addSpotLight_spec (s : ThreeState) (sc : SceneObj)
    (h : s.scene = some sc) :
    ∃ s2 evs sc2, addSpotLight s = Except.ok (s2, evs) ∧
      s2.config = s.config ∧ s2.scene = some sc2 := by
  unfold addSpotLight
  rw [h]
  split_ifs <;>
    first
      | exact ⟨_, _, _, rfl, rfl, rfl⟩
      | exact ⟨_, _, _, rfl, rfl, h⟩

/-- When a scene exists, `createLights` returns normally, preserving the
configuration. -/
theorem createLights_spec (s : ThreeState) (sc : SceneObj)
    (h : s.scene = some sc) :
    ∃ s2 evs sc2, createLights s = Except.ok (s2, evs) ∧
      s2.config = s.config ∧ s2.scene = some sc2 := by
  unfold createLights
  split_ifs with hen
  · exact ⟨_, _, _, rfl, rfl, h⟩
  · obtain ⟨s1, e1, sc1, h1, hc1, hs1⟩ := addAmbientLight_spec s sc h
    obtain ⟨s2, e2, sc2, h2, hc2, hs2⟩ := addDirectionalLight_spec s1 sc1 hs1
    obtain ⟨s3, e3, sc3, h3, hc3, hs3⟩ := addHemisphereLight_spec s2 sc2 hs2
    obtain ⟨s4, e4, sc4, h4, hc4, hs4⟩ := addPointLight_spec s3 sc3 hs3
    obtain ⟨s5, e5, sc5, h5, hc5, hs5⟩ := addSpotLight_spec s4 sc4 hs4
    refine ⟨s5, e1 ++ e2 ++ e3 ++ e4 ++ e5, sc5, ?_, ?_, hs5⟩
    · rw [h1, andThen_ok_ok h2, andThen_ok_ok h3, andThen_ok_ok h4,
        andThen_ok_ok h5]
    · rw [hc5, hc4, hc3, hc2, hc1]

/-- `createRenderer` returns normally, preserving the configuration. -/
theorem createRenderer_spec (env : Env) (s : ThreeState) :
    ∃ s2 evs, createRenderer env s = Except.ok (s2, evs) ∧
      s2.config = s.config := by
  unfold createRenderer
  split_ifs <;> exact ⟨_, _, rfl, rfl⟩

/-- `init` returns normally and preserves the stored configuration. -/
theorem init_spec (env : Env) (s : ThreeState) :
    ∃ s2 evs, init env s = Except.ok (s2, evs) ∧ s2.config = s.config := by
  obtain ⟨sc0, h0⟩ := createScene_spec s
  obtain ⟨c1, h1⟩ := createCamera_spec env { s with scene := some sc0 }
  obtain ⟨s2, e2, sc2, h2, hc2, hs2⟩ :=
    createGeometryOp_spec { s with scene := some sc0, camera := c1 } sc0 rfl
  obtain ⟨s3, e3, sc3, h3, hc3, hs3⟩ := createLights_spec s2 sc2 hs2
  obtain ⟨s4, e4, h4, hc4⟩ := createRenderer_spec env s3
  refine ⟨s4, [] ++ [] ++ e2 ++ e3 ++ e4, ?_, ?_⟩
  · unfold init
    rw [h0, andThen_ok_ok h1, andThen_ok_ok h2, andThen_ok_ok h3,
      andThen_ok_ok h4]
  · rw [hc4, hc3, hc2]

/-- One `animate` step returns normally, preserves the configuration, and
registers exactly one animation frame when animation is enabled (none
otherwise). -/
theorem animate_spec (s : ThreeState) :
    ∃ s2 evs, animate s = Except.ok (s2, evs) ∧ s2.config = s.config ∧
      countRafRegisters evs =
        (if s.config.animation.enabled then 1 else 0) := by
  by_cases h : s.config.animation.enabled = false
  · refine ⟨s, [], ?_, rfl, ?_⟩
    · simp [animate, h]
    · simp [countRafRegisters, h]
  · have he : s.config.animation.enabled = true := by simpa using h
    simp only [animate, he, Bool.true_eq_false, if_false]
    refine ⟨_, _, rfl, ?_, ?_⟩
    · split_ifs with h2
      · exact rotateMesh_config _
      · rfl
    · split_ifs <;> simp [countRafRegisters]

/-- Claim C8: `updateConfig` stores the shallow top-level merge of the old
configuration with the partial argument (each present section replaces the
stored one wholesale), then performs the full dispose of all existing
resources, followed by the complete rebuild (`init`) and a restart of the
animation loop exactly when the merged configuration has animation
enabled; the emitted trace is exactly dispose-trace ++ init-trace ++
animate-trace, with no incremental path; an error in the rebuild would
propagate through the uncaught `andThen` sequencing. -/
theorem C8_updateConfig_full_rebuild (env : Env) (p : PartialConfig)
    (s : ThreeState) :
    ∃ e1 s2 e2 s3 e3,
      disposeE { s with config := mergeConfig s.config p } =
        Except.ok ({ s with config := mergeConfig s.config p, labels := [] }, e1) ∧
      init env { s with config := mergeConfig s.config p, labels := [] } =
        Except.ok (s2, e2) ∧
      (if (mergeConfig s.config p).animation.enabled then animate s2
       else Except.ok (s2, [])) = Except.ok (s3, e3) ∧
      updateConfig env p s = Except.ok (s3, e1 ++ e2 ++ e3) ∧
      s3.config = mergeConfig s.config p ∧
      countRafRegisters e3 =
        (if (mergeConfig s.config p).animation.enabled then 1 else 0) ∧
      (mergeConfig s.config p).geometry = p.geometry.getD s.config.geometry ∧
      (mergeConfig s.config p).material = p.material.getD s.config.material ∧
      (mergeConfig s.config p).camera = p.camera.getD s.config.camera ∧
      (mergeConfig s.config p).lighting = p.lighting.getD s.config.lighting ∧
      (mergeConfig s.config p).renderer = p.renderer.getD s.config.renderer ∧
      (mergeConfig s.config p).animation = p.animation.getD s.config.animation ∧
      (mergeConfig s.config p).scene = p.scene.getD s.config.scene := by
  obtain ⟨dEvs, hd⟩ : ∃ e,
      disposeE { s with config := mergeConfig s.config p } =
        Except.ok ({ s with config := mergeConfig s.config p, labels := [] }, e) :=
    ⟨_, rfl⟩
  obtain ⟨s2, e2, hinit, hcfg⟩ :=
    init_spec env { s with config := mergeConfig s.config p, labels := [] }
  have hcfg2 : s2.config = mergeConfig s.config p := hcfg
  by_cases han : (mergeConfig s.config p).animation.enabled = true
  · obtain ⟨s3, e3, hani, hcfg3, hcount⟩ := animate_spec s2
    have hfan : (if s2.config.animation.enabled then animate s2
        else Except.ok (s2, [])) = Except.ok (s3, e3) := by
      rw [hcfg2, if_pos han]
      exact hani
    refine ⟨dEvs, s2, e2, s3, e3, hd, hinit, ?_, ?_, ?_, ?_,
      rfl, rfl, rfl, rfl, rfl, rfl, rfl⟩
    · rw [if_pos han]
      exact hani
    · show updateConfig env p s = Except.ok (s3, dEvs ++ e2 ++ e3)
      unfold updateConfig
      rw [hd, andThen_ok_ok hinit, andThen_ok_ok hfan]
    · rw [hcfg3, hcfg2]
    · rw [if_pos han]
      rw [hcfg2, if_pos han] at hcount
      exact hcount
  · have hanf : (mergeConfig s.config p).animation.enabled = false := by
      simpa using han
    have hfan : (if s2.config.animation.enabled then animate s2
        else Except.ok (s2, [])) = Except.ok (s2, []) := by
      rw [hcfg2, if_neg han]
    refine ⟨dEvs, s2, e2, s2, [], hd, hinit, ?_, ?_, hcfg2, ?_,
      rfl, rfl, rfl, rfl, rfl, rfl, rfl⟩
    · rw [if_neg han]
    · show updateConfig env p s = Except.ok (s2, dEvs ++ e2 ++ [])
      unfold updateConfig
      rw [hd, andThen_ok_ok hinit, andThen_ok_ok hfan]
    · rw [if_neg han]
      simp [countRafRegisters]

/-- Witness for C8 at the standard environment, the empty partial
configuration and the all-null state. -/
theorem C8_updateConfig_full_rebuild_witness :
    ∃ e1 s2 e2 s3 e3,
      disposeE { stateNull with
          config := mergeConfig stateNull.config emptyPartialConfig } =
        Except.ok ({ stateNull with
          config := mergeConfig stateNull.config emptyPartialConfig
          labels := [] }, e1) ∧
      init envStd { stateNull with
          config := mergeConfig stateNull.config emptyPartialConfig
          labels := [] } =
        Except.ok (s2, e2) ∧
      (if (mergeConfig stateNull.config emptyPartialConfig).animation.enabled
       then animate s2 else Except.ok (s2, [])) = Except.ok (s3, e3) ∧
      updateConfig envStd emptyPartialConfig stateNull =
        Except.ok (s3, e1 ++ e2 ++ e3) ∧
      s3.config = mergeConfig stateNull.config emptyPartialConfig ∧
      countRafRegisters e3 =
        (if (mergeConfig stateNull.config emptyPartialConfig).animation.enabled
         then 1 else 0) ∧
      (mergeConfig stateNull.config emptyPartialConfig).geometry =
        emptyPartialConfig.geometry.getD stateNull.config.geometry ∧
      (mergeConfig stateNull.config emptyPartialConfig).material =
        emptyPartialConfig.material.getD stateNull.config.material ∧
      (mergeConfig stateNull.config emptyPartialConfig).camera =
        emptyPartialConfig.camera.getD stateNull.config.camera ∧
      (mergeConfig stateNull.config emptyPartialConfig).lighting =
        emptyPartialConfig.lighting.getD stateNull.config.lighting ∧
      (mergeConfig stateNull.config emptyPartialConfig).renderer =
        emptyPartialConfig.renderer.getD stateNull.config.renderer ∧
      (mergeConfig stateNull.config emptyPartialConfig).animation =
        emptyPartialConfig.animation.getD stateNull.config.animation ∧
      (mergeConfig stateNull.config emptyPartialConfig).scene =
        emptyPartialConfig.scene.getD stateNull.config.scene :=
  C8_updateConfig_full_rebuild envStd emptyPartialConfig stateNull

end ThreeJs
